import Mathlib

/-!
Shallow embedding of the Request lifecycle engine of `src/Request.ts`
(dorst-app/simple-networking).  The mutable fields of a `Request` become an
explicit state record threaded through every step; middleware hooks become
optional state-transforming functions; the transport, the JSON parser and the
decoders are external collaborators and are modelled as oracles carried by the
per-attempt outcome.  `start()` becomes a fuel-indexed recursive driver over a
list of transport-attempt outcomes; each pipeline restart consumes one unit of
fuel, and each transport call consumes one attempt outcome.  Ghost fields
(`fatalRounds`, `serverErrorPolls`, `attemptTimeouts`) instrument the state so
that temporal claims about notification rounds, the shared server-error path
and the timeout handed to the transport are observable.
-/

namespace SimpleNet

/-- HTTP methods supported by the library (`HTTPMethod` in Request.ts). -/
inductive HTTPMethod
  | get
  | post
  | patch
  | delete
  | put
deriving DecidableEq

/-- Header mapping (`this.headers`), a JS object modelled as an association
list with unique keys kept in insertion order. -/
abbrev Headers := List (String × String)

/-- Property read `headers[key]` on the JS header object. -/
def getHeader : Headers → String → Option String
  | [], _ => none
  | (k, v) :: rest, key => if k = key then some v else getHeader rest key

/-- Property write `headers[key] = val` on the JS header object: replaces the
existing entry or appends a new one. -/
def setHeader : Headers → String → String → Headers
  | [], key, val => [(key, val)]
  | (k, v) :: rest, key, val =>
    if k = key then (k, val) :: rest else (k, v) :: setHeader rest key val

/-- The mutable state of one `Request` instance, together with ghost
instrumentation.  `inBag` models membership of this request in its
`RequestBag`'s `requests` list.  `fatalRounds` counts executions of the
`didFailNetwork`-guarded fatal-notification block; `serverErrorPolls` counts
entries into `retryOrThrowServerError`; `attemptTimeouts` records, for each
transport call, the timeout handed to the transport paired with whether a
timeout failure had already been observed; `sawTimeout` records that some
earlier attempt failed with a timeout. -/
structure RState where
  timeout : Option Nat
  shouldRetry : Bool
  allowErrorRetry : Bool
  didFailNetwork : Bool
  headers : Headers
  inBag : Bool
  fatalRounds : Nat
  serverErrorPolls : Nat
  attemptTimeouts : List (Nat × Bool)
  sawTimeout : Bool
deriving DecidableEq

/-- A middleware (`RequestMiddleware`): every hook is optional.  Hooks receive
the request and may mutate it, so they are modelled as functions on `RState`;
decision hooks also return their boolean verdict. -/
structure MW where
  onBeforeRequest : Option (RState → RState)
  shouldRetryNetworkError : Option (RState → Bool × RState)
  shouldRetryError : Option (RState → Bool × RState)
  shouldRetryServerError : Option (RState → Bool × RState)
  onFatalNetworkError : Option (RState → RState)
  onNetworkResponse : Option (RState → RState)

/-- A middleware with no hooks at all. -/
def noMW : MW :=
  { onBeforeRequest := none
    shouldRetryNetworkError := none
    shouldRetryError := none
    shouldRetryServerError := none
    onFatalNetworkError := none
    onNetworkResponse := none }

/-- The body of a request: absent, a `FormData` (we keep only the sizes of its
entries, which is all the code inspects), or a structured object to be encoded.
For the form-url-encoded branch, `encoded` is the (external) `encodeObject`
result: `none` models `encodeObject` returning null/undefined, which the code
turns into a thrown `Error`. -/
inductive BodyKind
  | noBody
  | formData (entrySizes : List Nat)
  | structured (encoded : Option (List (String × Option String)))

/-- The immutable configuration of one request: the constructor-set fields
that `start()` never assigns, plus the middleware lists.  `query` is the
(external) `encodeObject` image of `this.query` when that field is truthy and
the encoder returned an object: each pair is a key with its stringified value,
`none` standing for an undefined value. -/
structure RequestConfig where
  host : String
  method : HTTPMethod
  path : String
  version : Option Nat
  query : Option (List (String × Option String))
  body : BodyKind
  hasDecoder : Bool
  hasErrorDecoder : Bool
  sharedMiddlewares : List MW
  middlewares : List MW
  hasBag : Bool

/-- `getMiddlewares()`: shared middlewares first, then instance middlewares. -/
def getMiddlewares (sc : RequestConfig) : List MW :=
  sc.sharedMiddlewares ++ sc.middlewares

/-- Error codes of the `SimpleError`s produced by the transport adapter. -/
inductive ErrCode
  | networkError
  | networkTimeout
  | networkAbort
deriving DecidableEq

/-- An error caught by the catch handler of `start()`: either a transport
rejection carrying an error code, or the plain `Error` thrown by the
form-url-encoded body encoder on a null/undefined encodable. -/
inductive CaughtErr
  | fetchErr (c : ErrCode)
  | encodingErr
deriving DecidableEq

/-- The distinct error values `start()` can throw to its caller. -/
inductive Thrown
  | transportErr (c : ErrCode)
  | invalidBodyErr
  | parseErr
  | errorDecodeErr
  | decodedErr
  | rawJsonErr
  | bodyErr
  | missingJsonErr
  | respDecodeErr
deriving DecidableEq

/-- The error rethrown by the catch handler for a given caught error. -/
def thrownOfCaught : CaughtErr → Thrown
  | CaughtErr.fetchErr c => Thrown.transportErr c
  | CaughtErr.encodingErr => Thrown.invalidBodyErr

/-- The payload of a successful `RequestResult`. -/
inductive ResVal
  | decodedVal
  | rawJsonVal
  | rawTextVal
deriving DecidableEq

/-- A terminal outcome of the modelled `start()`. -/
inductive StartResult
  | ok (v : ResVal)
  | thrown (e : Thrown)
  | outOfFuel
deriving DecidableEq

/-- The outcome of one stage of the pipeline: restart the whole pipeline,
throw an error to the caller, or return a result. -/
inductive StepOut
  | restart (s : RState)
  | throwE (e : Thrown) (s : RState)
  | done (v : ResVal) (s : RState)
deriving DecidableEq

/-- One completed transport exchange, with oracles for the external JSON
parser and decoders: `parseOk` tells whether `JSON.parse(response.response)`
succeeds, `errorDecodeOk` whether `errorDecoder.decode` succeeds on the parsed
body, `respDecodeOk` whether `this.decoder.decode` succeeds on it. -/
structure TResponse where
  status : Nat
  contentType : Option String
  parseOk : Bool
  errorDecodeOk : Bool
  respDecodeOk : Bool
deriving DecidableEq

/-- The outcome of one transport attempt: a rejection with a tagged error, or
a completed HTTP exchange. -/
inductive AttemptOutcome
  | failure (c : ErrCode)
  | success (r : TResponse)
deriving DecidableEq

/-- Run the `onBeforeRequest` hooks in order (line 255-257). -/
def runOnBeforeRequest : List MW → RState → RState
  | [], s => s
  | mw :: rest, s =>
    match mw.onBeforeRequest with
    | none => runOnBeforeRequest rest s
    | some hook => runOnBeforeRequest rest (hook s)

/-- Run the `onNetworkResponse` hooks in order (lines 379-384). -/
def runOnNetworkResponse : List MW → RState → RState
  | [], s => s
  | mw :: rest, s =>
    match mw.onNetworkResponse with
    | none => runOnNetworkResponse rest s
    | some hook => runOnNetworkResponse rest (hook s)

/-- Run the `onFatalNetworkError` hooks in order (lines 366-371 and 134-142). -/
def runOnFatalNetworkError : List MW → RState → RState
  | [], s => s
  | mw :: rest, s =>
    match mw.onFatalNetworkError with
    | none => runOnFatalNetworkError rest s
    | some hook => runOnFatalNetworkError rest (hook s)

/-- The network-error retry poll (lines 342-353).  Mirrors the JS statement
`retry = retry || (await middleware.shouldRetryNetworkError(this, error))`:
the disjunction short-circuits, so once the accumulator is true a later hook
is no longer invoked.  After each middleware the loop breaks early when
`shouldRetry` has become false or `didFailNetwork` has become true. -/
def shouldRetryNetworkErrorLoop : List MW → Bool → RState → Bool × RState
  | [], retry, s => (retry, s)
  | mw :: rest, retry, s =>
    let p : Bool × RState :=
      match mw.shouldRetryNetworkError with
      | none => (retry, s)
      | some hook =>
        match retry with
        | true => (true, s)
        | false => hook s
    if !p.2.shouldRetry || p.2.didFailNetwork then p
    else shouldRetryNetworkErrorLoop rest p.1 p.2

/-- The decodable-error retry poll (lines 415-421): same short-circuiting
disjunction, but the loop has no early-exit break. -/
def shouldRetryErrorLoop : List MW → Bool → RState → Bool × RState
  | [], retry, s => (retry, s)
  | mw :: rest, retry, s =>
    let p : Bool × RState :=
      match mw.shouldRetryError with
      | none => (retry, s)
      | some hook =>
        match retry with
        | true => (true, s)
        | false => hook s
    shouldRetryErrorLoop rest p.1 p.2

/-- The server-error retry poll (lines 480-486): same short-circuiting
disjunction, no early-exit break. -/
def shouldRetryServerErrorLoop : List MW → Bool → RState → Bool × RState
  | [], retry, s => (retry, s)
  | mw :: rest, retry, s =>
    let p : Bool × RState :=
      match mw.shouldRetryServerError with
      | none => (retry, s)
      | some hook =>
        match retry with
        | true => (true, s)
        | false => hook s
    shouldRetryServerErrorLoop rest p.1 p.2

/-- `this.bag?.removeRequest(this)`: a no-op when no bag is associated. -/
def debag (sc : RequestConfig) (s : RState) : RState :=
  if sc.hasBag then {s with inBag := false} else s

/-- Line 260: `this.timeout ?? (this.method == "GET" ? 10 * 1000 : 15 * 10000)`. -/
def defaultTimeout (sc : RequestConfig) (s : RState) : Nat :=
  match s.timeout with
  | some t => t
  | none => if sc.method = HTTPMethod.get then 10 * 1000 else 15 * 10000

/-- Total size of the FormData entries (lines 271-278): string entries count
their length, other entries their size; both are just the recorded number. -/
def formDataSize (sizes : List Nat) : Nat :=
  sizes.foldl (fun a b => a + b) 0

/-- Lines 285: the JS condition
`this.headers["Content-Type"] && headers["Content-Type"].startsWith("application/x-www-form-urlencoded")`;
an absent or empty header value is falsy. -/
def contentTypeIsUrlencoded (hs : Headers) : Bool :=
  match getHeader hs "Content-Type" with
  | none => false
  | some ct => ct ≠ "" && ct.startsWith "application/x-www-form-urlencoded"

/-- Outcome of the body-encoding section (lines 262-300): either the effective
timeout for this attempt together with the possibly mutated state, or the
state at the `throw new Error("Invalid body, ...")` statement. -/
inductive EncodeOut
  | encOk (timeoutMs : Nat) (s : RState)
  | encThrow (s : RState)
deriving DecidableEq

/-- Lines 262-300 of `start()`: encode the body.  A FormData body larger than
1 000 000 000 raises the effective timeout to at least 60 000 ms; a structured
body without a form-url-encoded content type sets the `Content-Type` header
to `application/json;charset=utf-8`; a structured body in form-url-encoded
mode throws when the external encoder returned null/undefined. -/
def encodeBody (sc : RequestConfig) (t0 : Nat) (s : RState) : EncodeOut :=
  match sc.body with
  | BodyKind.noBody => EncodeOut.encOk t0 s
  | BodyKind.formData sizes =>
    if 1000 * 1000 * 1000 < formDataSize sizes then
      EncodeOut.encOk (max t0 (60 * 1000)) s
    else EncodeOut.encOk t0 s
  | BodyKind.structured enc =>
    if contentTypeIsUrlencoded s.headers then
      match enc with
      | none => EncodeOut.encThrow s
      | some _ => EncodeOut.encOk t0 s
    else
      EncodeOut.encOk t0
        {s with headers := setHeader s.headers "Content-Type" "application/json;charset=utf-8"}

/-- Lines 330-333: a `network_timeout` rejection escalates the stored timeout
to the maximum of the attempt timeout and 30 000 ms; the ghost flag
`sawTimeout` records that a timeout has occurred. -/
def escalateTimeout (t : Nat) (e : CaughtErr) (s : RState) : RState :=
  if e = CaughtErr.fetchErr ErrCode.networkTimeout then
    {s with timeout := some (max t (30 * 1000)), sawTimeout := true}
  else s

/-- The catch handler of `start()` (lines 329-377): escalate the timeout on a
timeout failure, poll the network-error retry hooks when retries are allowed,
restart on an approved retry, otherwise run the guarded fatal-notification
block, deregister from the bag and rethrow. -/
def handleFailure (sc : RequestConfig) (t : Nat) (e : CaughtErr) (s : RState) : StepOut :=
  let s1 := escalateTimeout t e s
  let polled : Bool × RState :=
    if s1.shouldRetry && !s1.didFailNetwork then
      shouldRetryNetworkErrorLoop (getMiddlewares sc) false s1
    else (false, s1)
  if polled.1 && polled.2.shouldRetry && !polled.2.didFailNetwork then
    StepOut.restart polled.2
  else
    let s2 := polled.2
    let s3 :=
      if !s2.didFailNetwork then
        runOnFatalNetworkError (getMiddlewares sc)
          {s2 with didFailNetwork := true, fatalRounds := s2.fatalRounds + 1}
      else s2
    StepOut.throwE (thrownOfCaught e) (debag sc s3)

/-- `retryOrThrowServerError` (lines 472-496): poll the server-error retry
hooks when `shouldRetry` holds, restart on an approved retry, otherwise
deregister from the bag and throw the given error.  The ghost counter
`serverErrorPolls` counts entries into this shared path. -/
def retryOrThrowServerErrorStep (sc : RequestConfig) (e : Thrown) (s : RState) : StepOut :=
  let s0 := {s with serverErrorPolls := s.serverErrorPolls + 1}
  if s0.shouldRetry then
    let polled := shouldRetryServerErrorLoop (getMiddlewares sc) false s0
    if polled.1 && polled.2.shouldRetry then StepOut.restart polled.2
    else StepOut.throwE e (debag sc polled.2)
  else StepOut.throwE e (debag sc s0)

/-- Lines 388-411: inside the non-2xx JSON branch, `JSON.parse` and the error
decoder run in one try block; any exception there is routed to
`retryOrThrowServerError` (as `Except.error`), a successful decode (or, with
no error decoder, the raw parsed JSON) becomes the error value to throw. -/
def parseAndDecodeError (sc : RequestConfig) (r : TResponse) : Except Thrown Thrown :=
  if r.parseOk then
    if sc.hasErrorDecoder then
      if r.errorDecodeOk then Except.ok Thrown.decodedErr
      else Except.error Thrown.errorDecodeErr
    else Except.ok Thrown.rawJsonErr
  else Except.error Thrown.parseErr

/-- Lines 379-470: classify a completed HTTP exchange.  Note that on the 2xx
JSON path a configured response decoder runs outside any try block (line 448),
so its failure propagates directly, without `removeRequest` and without the
server-error path. -/
def handleResponse (sc : RequestConfig) (r : TResponse) (s : RState) : StepOut :=
  let s0 := runOnNetworkResponse (getMiddlewares sc) s
  if r.status < 200 || 300 ≤ r.status then
    if r.contentType = some "application/json" then
      match parseAndDecodeError sc r with
      | Except.error e => retryOrThrowServerErrorStep sc e s0
      | Except.ok err =>
        if s0.shouldRetry || s0.allowErrorRetry then
          let polled := shouldRetryErrorLoop (getMiddlewares sc) false s0
          if polled.1 && (polled.2.shouldRetry || polled.2.allowErrorRetry) then
            StepOut.restart polled.2
          else StepOut.throwE err (debag sc polled.2)
        else StepOut.throwE err (debag sc s0)
    else retryOrThrowServerErrorStep sc Thrown.bodyErr s0
  else
    if r.contentType = some "application/json" then
      if r.parseOk then
        if sc.hasDecoder then
          if r.respDecodeOk then StepOut.done ResVal.decodedVal (debag sc s0)
          else StepOut.throwE Thrown.respDecodeErr s0
        else StepOut.done ResVal.rawJsonVal (debag sc s0)
      else retryOrThrowServerErrorStep sc Thrown.parseErr s0
    else
      if sc.hasDecoder then retryOrThrowServerErrorStep sc Thrown.missingJsonErr s0
      else StepOut.done ResVal.rawTextVal (debag sc s0)

/-- Ghost instrumentation of the transport call: record the timeout handed
to the transport (line 241: `request.timeout = data.timeout`), paired with
whether a timeout failure had already been observed at that moment. -/
def recordAttempt (t : Nat) (s : RState) : RState :=
  {s with attemptTimeouts := s.attemptTimeouts ++ [(t, s.sawTimeout)]}

/-- The transport's abort handler disables retries before rejecting with the
abort error (line 225: `this.shouldRetry = false`). -/
def applyAbortFlag (c : ErrCode) (s : RState) : RState :=
  if c = ErrCode.networkAbort then {s with shouldRetry := false} else s

/-- The modelled `start()` (lines 251-470): run the before-request hooks,
compute the effective timeout, encode the body (whose throw is caught by the
same catch handler, without consuming a transport attempt), perform the
transport call by consuming the next attempt outcome, and dispatch to the
failure or response handler; a `restart` outcome recursively re-enters the
pipeline with one unit of fuel less. -/
def startModel : Nat → RequestConfig → RState → List AttemptOutcome → StartResult × RState
  | 0, _, s, _ => (StartResult.outOfFuel, s)
  | Nat.succ fuel, sc, s, attempts =>
    let s1 := runOnBeforeRequest (getMiddlewares sc) s
    let t0 := defaultTimeout sc s1
    match encodeBody sc t0 s1 with
    | EncodeOut.encThrow s2 =>
      match handleFailure sc t0 CaughtErr.encodingErr s2 with
      | StepOut.restart s3 => startModel fuel sc s3 attempts
      | StepOut.throwE e s3 => (StartResult.thrown e, s3)
      | StepOut.done v s3 => (StartResult.ok v, s3)
    | EncodeOut.encOk t s2 =>
      match attempts with
      | [] => (StartResult.outOfFuel, s2)
      | AttemptOutcome.failure c :: rest =>
        match handleFailure sc t (CaughtErr.fetchErr c) (applyAbortFlag c (recordAttempt t s2)) with
        | StepOut.restart s3 => startModel fuel sc s3 rest
        | StepOut.throwE e s3 => (StartResult.thrown e, s3)
        | StepOut.done v s3 => (StartResult.ok v, s3)
      | AttemptOutcome.success r :: rest =>
        match handleResponse sc r (recordAttempt t s2) with
        | StepOut.restart s3 => startModel fuel sc s3 rest
        | StepOut.throwE e s3 => (StartResult.thrown e, s3)
        | StepOut.done v s3 => (StartResult.ok v, s3)

/-- Characters left unescaped by the JS `encodeURIComponent` builtin:
alphanumerics and `- _ . ! ~ * ' ( )`. -/
def isUnreservedURI (c : Char) : Bool :=
  c.isAlphanum || c = '-' || c = '_' || c = '.' || c = '!' || c = '~' ||
    c = '*' || c.toNat = 39 || c = '(' || c = ')'

/-- UTF-8 bytes of a code point, used by percent-encoding. -/
def utf8Bytes (c : Char) : List Nat :=
  let n := c.toNat
  if n < 128 then [n]
  else if n < 2048 then [192 + n / 64, 128 + n % 64]
  else if n < 65536 then [224 + n / 4096, 128 + n / 64 % 64, 128 + n % 64]
  else [240 + n / 262144, 128 + n / 4096 % 64, 128 + n / 64 % 64, 128 + n % 64]

/-- Upper-case hexadecimal digit. -/
def hexDigitChar (n : Nat) : Char :=
  if n < 10 then Char.ofNat (48 + n) else Char.ofNat (55 + n)

/-- One percent-escaped byte, e.g. 32 becomes "%20". -/
def percentByte (n : Nat) : String :=
  String.mk [Char.ofNat 37, hexDigitChar (n / 16 % 16), hexDigitChar (n % 16)]

/-- The JS `encodeURIComponent` builtin (an external collaborator of the
source, modelled per its standard definition). -/
def encodeURIComponent (s : String) : String :=
  String.join (s.data.map (fun c =>
    if isUnreservedURI c then String.singleton c
    else String.join ((utf8Bytes c).map percentByte)))

/-- Lines 309-312: the `key=value` fragments of the query string, skipping
keys whose value is undefined, URI-encoding key and value independently. -/
def encodedQueryPairs (pairs : List (String × Option String)) : List String :=
  pairs.filterMap (fun kv =>
    match kv.2 with
    | none => none
    | some v => some (encodeURIComponent kv.1 ++ "=" ++ encodeURIComponent v))

/-- Lines 302-314: the query string is built only when the encoded query
object exists and has at least one key (undefined-valued keys included in
that count); it is then "?" followed by the "&"-joined defined pairs. -/
def queryStringOf (q : Option (List (String × Option String))) : String :=
  match q with
  | none => ""
  | some pairs =>
    if 0 < pairs.length then "?" ++ String.intercalate "&" (encodedQueryPairs pairs)
    else ""

/-- Line 322: `"/v" + version` when a version is set, else nothing. -/
def versionPart (v : Option Nat) : String :=
  match v with
  | some n => "/v" ++ toString n
  | none => ""

/-- Line 322: the URL handed to the transport. -/
def buildURL (sc : RequestConfig) : String :=
  sc.host ++ versionPart sc.version ++ sc.path ++ queryStringOf sc.query

/-- The network-error retry poll as claim C2 words it: every middleware's
hook is invoked (its answer OR-ed into the verdict, never skipped), and the
loop exits early only when `shouldRetry` has become false or `didFailNetwork`
has become true after a hook.  Written from the claim, for comparison with
`shouldRetryNetworkErrorLoop`, which is written from the source. -/
def shouldRetryNetworkErrorLoopClaimed : List MW → Bool → RState → Bool × RState
  | [], retry, s => (retry, s)
  | mw :: rest, retry, s =>
    let p : Bool × RState :=
      match mw.shouldRetryNetworkError with
      | none => (retry, s)
      | some hook =>
        let q := hook s
        (retry || q.1, q.2)
    if !p.2.shouldRetry || p.2.didFailNetwork then p
    else shouldRetryNetworkErrorLoopClaimed rest p.1 p.2

/-- The decodable-error retry poll as claim C7 words it: the same pattern as
the network-error poll, including its early exit once a state change makes
the gate `shouldRetry || allowErrorRetry` false.  Written from the claim, for
comparison with `shouldRetryErrorLoop`, which is written from the source. -/
def shouldRetryErrorLoopClaimed : List MW → Bool → RState → Bool × RState
  | [], retry, s => (retry, s)
  | mw :: rest, retry, s =>
    let p : Bool × RState :=
      match mw.shouldRetryError with
      | none => (retry, s)
      | some hook => if retry then (true, s) else hook s
    if !(p.2.shouldRetry || p.2.allowErrorRetry) then p
    else shouldRetryErrorLoopClaimed rest p.1 p.2

/-- State of the cancellation protocol of one request, for the lifecycle
model of claim C4: the three flags, whether a transport call is outstanding
(`this.XMLHttpRequest` non-null), and a ghost counter of executions of the
`didFailNetwork`-guarded fatal-notification block.  Middleware fatal hooks
are modelled as pure notifications here, matching their void-returning
notification role; the claim quantifies over cancel calls and transport
terminations, not over hook side effects. -/
structure CancelState where
  shouldRetry : Bool
  allowErrorRetry : Bool
  didFailNetwork : Bool
  xhrOutstanding : Bool
  fatalRounds : Nat
deriving DecidableEq

/-- Events of the cancellation protocol: a `cancel()` call, the transport
call being issued (`this.XMLHttpRequest = request` in `fetch`), and a
transport failure reaching the catch handler of `start()` with the given
aggregated network-error-retry poll verdict. -/
inductive CancelEvent
  | cancel
  | fetchIssued
  | fetchFailed (retryVerdict : Bool)
deriving DecidableEq

/-- The `didFailNetwork`-guarded fatal-notification block (lines 132-143 and
363-372): runs the fatal hooks at most once per request. -/
def fatalNotify (s : CancelState) : CancelState :=
  if !s.didFailNetwork then
    {s with didFailNetwork := true, fatalRounds := s.fatalRounds + 1}
  else s

/-- `cancel()` (lines 121-146): force both retry flags false; abort the
outstanding transport call if there is one (its catch handler runs as a later
`fetchFailed` event), otherwise fire the guarded fatal notification
synchronously. -/
def cancelStep (s : CancelState) : CancelState :=
  let s1 := {s with shouldRetry := false, allowErrorRetry := false}
  if s1.xhrOutstanding then {s1 with xhrOutstanding := false}
  else fatalNotify s1

/-- One lifecycle event.  A transport failure first nulls the handle (the
fetch handlers do this before rejecting); the catch handler then restarts
when retries are allowed and the poll verdict is true, and otherwise runs the
guarded fatal notification. -/
def lifecycleStep (s : CancelState) : CancelEvent → CancelState
  | CancelEvent.cancel => cancelStep s
  | CancelEvent.fetchIssued => {s with xhrOutstanding := true}
  | CancelEvent.fetchFailed verdict =>
    let s1 := {s with xhrOutstanding := false}
    if s1.shouldRetry && !s1.didFailNetwork && verdict then s1
    else fatalNotify s1

/-- Run a sequence of lifecycle events. -/
def runLifecycle (s : CancelState) (evs : List CancelEvent) : CancelState :=
  evs.foldl lifecycleStep s

/-- A freshly constructed request: both retry flags at their initializers,
no failure recorded, no transport call outstanding. -/
def initialCancelState : CancelState :=
  { shouldRetry := true
    allowErrorRetry := true
    didFailNetwork := false
    xhrOutstanding := false
    fatalRounds := 0 }

/-- Whether a stage outcome restarts the pipeline. -/
def isRestartB : StepOut → Bool
  | StepOut.restart _ => true
  | _ => false

/-- One iteration of the decodable-error retry poll: skip the hook when the
accumulated verdict is already true (the short-circuiting disjunction),
otherwise invoke it. -/
def pollStepError (mw : MW) (p : Bool × RState) : Bool × RState :=
  match mw.shouldRetryError with
  | none => p
  | some hook => if p.1 then (true, p.2) else hook p.2

/-- A freshly started request state: no explicit timeout, both retry flags at
their initializers, registered in its bag, empty headers side. -/
def freshState : RState :=
  { timeout := none
    shouldRetry := true
    allowErrorRetry := true
    didFailNetwork := false
    headers := []
    inBag := true
    fatalRounds := 0
    serverErrorPolls := 0
    attemptTimeouts := []
    sawTimeout := false }

/-- A GET request with bag, response decoder and error decoder, the host,
version, path and query of the spec's URL example. -/
def plainConfig : RequestConfig :=
  { host := "https://api.example.com"
    method := HTTPMethod.get
    path := "/users"
    version := some 2
    query := some [("id", some "5"), ("name", none)]
    body := BodyKind.noBody
    hasDecoder := true
    hasErrorDecoder := true
    sharedMiddlewares := []
    middlewares := []
    hasBag := true }

/-- A 2xx JSON response that parses but on which the configured response
decoder throws. -/
def badDecodeResponse : TResponse :=
  { status := 200
    contentType := some "application/json"
    parseOk := true
    errorDecodeOk := true
    respDecodeOk := false }

/-- A middleware whose network-error hook answers true without touching the
request. -/
def netCexMW1 : MW :=
  { noMW with shouldRetryNetworkError := some (fun s => (true, s)) }

/-- A middleware whose network-error hook answers false and disables
retries. -/
def netCexMW2 : MW :=
  { noMW with shouldRetryNetworkError := some (fun s => (false, {s with shouldRetry := false})) }

/-- A middleware whose decodable-error hook answers false and disables both
retry gates. -/
def errCexMW1 : MW :=
  { noMW with shouldRetryError := some (fun s => (false, {s with shouldRetry := false, allowErrorRetry := false})) }

/-- A middleware whose decodable-error hook answers true and leaves a visible
mark in the headers. -/
def errCexMW2 : MW :=
  { noMW with shouldRetryError := some (fun s => (true, {s with headers := setHeader s.headers "X-Seen" "1"})) }

/-- A middleware whose server-error hook always approves a retry. -/
def approveServerRetryMW : MW :=
  { noMW with shouldRetryServerError := some (fun s => (true, s)) }

/-- The URL example request extended with a middleware that always approves
server-error retries. -/
def c3Config : RequestConfig :=
  {plainConfig with middlewares := [approveServerRetryMW]}

/-- A terminal `start()` outcome has detached the request from its bag,
except for the throw of a response-decoder failure on a 2xx JSON body. -/
def detachedResult : StartResult × RState → Prop
  | (StartResult.ok _, s) => s.inBag = false
  | (StartResult.thrown e, s) => e = Thrown.respDecodeErr ∨ s.inBag = false
  | (StartResult.outOfFuel, _) => True

/-- Invariant of the cancellation protocol: the fatal-notification block has
run exactly as often as the `didFailNetwork` guard records. -/
def FInv (s : CancelState) : Prop :=
  s.fatalRounds ≤ if s.didFailNetwork then 1 else 0

lemma fatalNotify_finv (s : CancelState) (h : FInv s) : FInv (fatalNotify s) := by
  unfold FInv at h ⊢
  unfold fatalNotify
  by_cases hd : s.didFailNetwork
  · simp [hd] at h ⊢
    omega
  · simp [hd] at h ⊢
    omega

lemma lifecycleStep_finv (s : CancelState) (ev : CancelEvent) (h : FInv s) :
    FInv (lifecycleStep s ev) := by
  cases ev with
  | cancel =>
    unfold lifecycleStep cancelStep
    by_cases hx : s.xhrOutstanding
    · simpa [FInv, hx] using h
    · simp only [hx]
      exact fatalNotify_finv _ (by simpa [FInv] using h)
  | fetchIssued => simpa [FInv, lifecycleStep] using h
  | fetchFailed verdict =>
    unfold lifecycleStep
    by_cases hr : ({s with xhrOutstanding := false} : CancelState).shouldRetry &&
        !({s with xhrOutstanding := false} : CancelState).didFailNetwork && verdict
    · simpa [FInv, hr] using h
    · simp only [hr]
      exact fatalNotify_finv _ (by simpa [FInv] using h)

lemma runLifecycle_finv (evs : List CancelEvent) :
    ∀ s : CancelState, FInv s → FInv (runLifecycle s evs) := by
  induction evs with
  | nil => intro s h; simpa [runLifecycle] using h
  | cons ev rest ih =>
    intro s h
    have h1 : FInv (lifecycleStep s ev) := lifecycleStep_finv s ev h
    simpa [runLifecycle] using ih (lifecycleStep s ev) h1

/-- C4: for every sequence of cancel() calls, transport starts and
transport-failure terminations, the guarded fatal-notification block runs at
most once for a request; calling cancel() twice from a fresh state produces
exactly one notification round; and a cancel() with no transport call
outstanding and the guard still open fires the notification synchronously
within cancel(). -/
theorem cancel_fatal_at_most_once :
    (∀ evs : List CancelEvent, (runLifecycle initialCancelState evs).fatalRounds ≤ 1) ∧
    (runLifecycle initialCancelState [CancelEvent.cancel, CancelEvent.cancel]).fatalRounds = 1 ∧
    (∀ s : CancelState, s.xhrOutstanding = false → s.didFailNetwork = false →
      (cancelStep s).fatalRounds = s.fatalRounds + 1) := by
  refine ⟨?_, by decide, ?_⟩
  · intro evs
    have h := runLifecycle_finv evs initialCancelState (by simp [FInv, initialCancelState])
    unfold FInv at h
    split at h <;> omega
  · intro s h1 h2
    simp [cancelStep, fatalNotify, h1, h2]

/-- Witness for C4: a concrete cancel() with no outstanding transport call
and the guard open increments the notification-round counter. -/
theorem cancel_fatal_at_most_once_witness :
    initialCancelState.xhrOutstanding = false ∧ initialCancelState.didFailNetwork = false ∧
      (cancelStep initialCancelState).fatalRounds = initialCancelState.fatalRounds + 1 :=
  ⟨rfl, rfl, cancel_fatal_at_most_once.2.2 initialCancelState rfl rfl⟩

/-- The effective timeout as claim C6 words it: the explicit per-request
timeout when set, else 10 000 ms for GET and 150 000 ms for every other
method, raised to at least 60 000 ms when the body is a FormData whose
entries total more than 1 000 000 000.  Written from the claim, for
comparison with `defaultTimeout` and `encodeBody`, which are written from the
source. -/
def claimedEffectiveTimeout (sc : RequestConfig) (s : RState) : Nat :=
  let base : Nat :=
    match s.timeout with
    | some t => t
    | none =>
      match sc.method with
      | HTTPMethod.get => 10000
      | _ => 150000
  match sc.body with
  | BodyKind.formData sizes =>
    if 1000000000 < formDataSize sizes then max base 60000 else base
  | _ => base

lemma defaultTimeout_eq_base (sc : RequestConfig) (s : RState) :
    defaultTimeout sc s =
      match s.timeout with
      | some t => t
      | none =>
        match sc.method with
        | HTTPMethod.get => 10000
        | _ => 150000 := by
  unfold defaultTimeout
  cases h : s.timeout <;> cases hm : sc.method <;> simp [h, hm]

/-- C6: the timeout handed to the transport is the explicit per-request
timeout when set, otherwise 10 000 ms for GET and 150 000 ms for every other
method; a FormData body whose entries total more than 1 000 000 000 raises it
to at least 60 000 ms from the first attempt. -/
theorem effective_timeout_policy :
    ∀ (sc : RequestConfig) (s : RState) (t : Nat) (s2 : RState),
      encodeBody sc (defaultTimeout sc s) s = EncodeOut.encOk t s2 →
      t = claimedEffectiveTimeout sc s ∧
      (∀ sizes, sc.body = BodyKind.formData sizes → 1000000000 < formDataSize sizes →
        60000 ≤ t) := by
  intro sc s t s2 h
  have hbase := defaultTimeout_eq_base sc s
  unfold encodeBody at h
  unfold claimedEffectiveTimeout
  cases hb : sc.body with
  | noBody =>
    simp only [hb] at h ⊢
    cases h
    exact ⟨hbase, fun sizes hs => by cases hs⟩
  | formData sizes =>
    simp only [hb] at h ⊢
    norm_num at h
    split_ifs at h ⊢ with hbig
    · cases h
      refine ⟨?_, fun sizes2 hs hb2 => ?_⟩
      · rw [hbase]
      · have := le_max_right (defaultTimeout sc s) 60000
        omega
    · cases h
      refine ⟨hbase, fun sizes2 hs hb2 => ?_⟩
      cases hs
      exact absurd hb2 hbig
  | structured enc =>
    simp only [hb] at h ⊢
    by_cases hurl : contentTypeIsUrlencoded s.headers = true
    · rw [if_pos hurl] at h
      cases enc with
      | none => cases h
      | some e =>
        cases h
        exact ⟨hbase, fun sizes hs => by cases hs⟩
    · rw [if_neg hurl] at h
      cases h
      exact ⟨hbase, fun sizes hs => by cases hs⟩

/-- A POST request carrying a FormData body over the 1 GB threshold. -/
def bigFormConfig : RequestConfig :=
  {plainConfig with method := HTTPMethod.post, body := BodyKind.formData [1000000001], hasBag := false}

/-- Witness for C6: the over-threshold FormData POST request gets 150 000 ms
(no explicit timeout, non-GET), which is at least 60 000 ms. -/
theorem effective_timeout_policy_witness :
    encodeBody bigFormConfig (defaultTimeout bigFormConfig freshState) freshState =
      EncodeOut.encOk 150000 freshState ∧
    150000 = claimedEffectiveTimeout bigFormConfig freshState ∧ 60000 ≤ (150000 : Nat) :=
  ⟨by decide,
   (effective_timeout_policy bigFormConfig freshState 150000 freshState (by decide)).1,
   (effective_timeout_policy bigFormConfig freshState 150000 freshState (by decide)).2
     [1000000001] rfl (by decide)⟩

/-- Counterexample to C1: on a 2xx JSON response whose configured response
decoder throws, start() terminates by throwing the decoder's error while the
request is still registered in its bag — this terminal outcome does not call
removeRequest. -/
theorem bag_removal_counterexample :
    (startModel 1 plainConfig freshState [AttemptOutcome.success badDecodeResponse]).1 =
      StartResult.thrown Thrown.respDecodeErr ∧
    (startModel 1 plainConfig freshState [AttemptOutcome.success badDecodeResponse]).2.inBag = true := by
  decide

/-- Counterexample to C2: with a first hook answering true and a second hook
that answers false while disabling retries, the source's poll (which skips
invoking hooks once the accumulated verdict is true) differs from the
claimed poll (which invokes every hook, exiting early only on a flag
change): the source leaves shouldRetry true and restarts, the claimed poll
ends with shouldRetry false and would not restart. -/
theorem network_retry_poll_counterexample :
    shouldRetryNetworkErrorLoop [netCexMW1, netCexMW2] false freshState ≠
      shouldRetryNetworkErrorLoopClaimed [netCexMW1, netCexMW2] false freshState ∧
    (shouldRetryNetworkErrorLoop [netCexMW1, netCexMW2] false freshState).2.shouldRetry = true ∧
    (shouldRetryNetworkErrorLoopClaimed [netCexMW1, netCexMW2] false freshState).2.shouldRetry = false ∧
    ((shouldRetryNetworkErrorLoop [netCexMW1, netCexMW2] false freshState).1 &&
      (shouldRetryNetworkErrorLoop [netCexMW1, netCexMW2] false freshState).2.shouldRetry &&
      !(shouldRetryNetworkErrorLoop [netCexMW1, netCexMW2] false freshState).2.didFailNetwork) = true ∧
    ((shouldRetryNetworkErrorLoopClaimed [netCexMW1, netCexMW2] false freshState).1 &&
      (shouldRetryNetworkErrorLoopClaimed [netCexMW1, netCexMW2] false freshState).2.shouldRetry &&
      !(shouldRetryNetworkErrorLoopClaimed [netCexMW1, netCexMW2] false freshState).2.didFailNetwork) = false := by
  decide

/-- Counterexample to C3: a 2xx JSON response whose configured response
decoder throws does not reach the shared server-error path — even with a
middleware whose shouldRetryServerError hook always approves, the error is
thrown unretried and the ghost counter of entries into
retryOrThrowServerError stays zero. -/
theorem server_error_shapes_counterexample :
    (startModel 2 c3Config freshState [AttemptOutcome.success badDecodeResponse]).1 =
      StartResult.thrown Thrown.respDecodeErr ∧
    (startModel 2 c3Config freshState [AttemptOutcome.success badDecodeResponse]).2.serverErrorPolls = 0 := by
  decide

/-- Counterexample to C7: the decodable-error poll has no early exit — after
a first hook disables both retry gates, the source still invokes the second
hook (its header mark is visible and its true answer is recorded), whereas
the claimed poll with the network-poll's early-exit pattern stops after the
first hook. -/
theorem error_retry_poll_counterexample :
    shouldRetryErrorLoop [errCexMW1, errCexMW2] false freshState ≠
      shouldRetryErrorLoopClaimed [errCexMW1, errCexMW2] false freshState ∧
    (shouldRetryErrorLoop [errCexMW1, errCexMW2] false freshState).1 = true ∧
    (shouldRetryErrorLoopClaimed [errCexMW1, errCexMW2] false freshState).1 = false ∧
    getHeader (shouldRetryErrorLoop [errCexMW1, errCexMW2] false freshState).2.headers "X-Seen" =
      some "1" ∧
    getHeader (shouldRetryErrorLoopClaimed [errCexMW1, errCexMW2] false freshState).2.headers "X-Seen" =
      none := by
  decide

/-- The example request with a present but empty encoded query object (a
truthy `query = {}` whose encoding has no keys). -/
def emptyQueryConfig : RequestConfig :=
  {plainConfig with query := some []}

/-- Counterexample to C8: for a present-but-empty encoded query object, the
code's key-count guard (line 306) emits no query string at all, while the
claim's formula — a "?" followed by the "&"-joined defined pairs — would
append a bare trailing "?". -/
theorem url_construction_counterexample :
    buildURL emptyQueryConfig = "https://api.example.com/v2/users" ∧
    buildURL emptyQueryConfig ≠
      emptyQueryConfig.host ++
        (match emptyQueryConfig.version with
         | some v => "/v" ++ toString v
         | none => "") ++
        emptyQueryConfig.path ++
        (match emptyQueryConfig.query with
         | none => ""
         | some kvs => "?" ++ String.intercalate "&" (encodedQueryPairs kvs)) := by
  constructor
  · decide
  · decide

/-- C8 amended: for every Request the target URL is host, then "/v" and the
version when one is set, then the path, then the query string; the query
string is empty when there is no encoded query object or when it has no keys
at all, and otherwise is "?" followed by the "&"-joined URI-component-encoded
key=value pairs with undefined-valued keys omitted entirely (so a query
object whose keys all carry undefined values yields a bare "?"); on the
spec's example the result is https://api.example.com/v2/users?id=5. -/
theorem url_construction_amended :
    ∀ sc : RequestConfig,
      buildURL sc =
        sc.host ++
          (match sc.version with
           | some v => "/v" ++ toString v
           | none => "") ++
          sc.path ++
          (match sc.query with
           | none => ""
           | some kvs =>
             if kvs = [] then ""
             else "?" ++ String.intercalate "&" (encodedQueryPairs kvs)) ∧
      buildURL plainConfig = "https://api.example.com/v2/users?id=5" := by
  intro sc
  constructor
  · unfold buildURL versionPart queryStringOf
    cases hq : sc.query with
    | none => rfl
    | some kvs =>
      by_cases hne : kvs = []
      · subst hne
        simp
      · have hl : 0 < kvs.length := List.length_pos.mpr hne
        simp [hl, hne]
  · decide

/-- C9: response classification compares the Content-Type header for exact
string equality with "application/json"; under any other header value the
parse and decode oracles are never consulted, a non-2xx response goes to the
shared server-error path with the raw-body error, and a 2xx response returns
the raw body or, when a response decoder is configured, goes to the shared
server-error path with the missing-JSON error. -/
theorem content_type_exact_match :
    ∀ (sc : RequestConfig) (r : TResponse) (s : RState),
      r.contentType ≠ some "application/json" →
      ((∀ p q d, handleResponse sc r s =
          handleResponse sc {r with parseOk := p, errorDecodeOk := q, respDecodeOk := d} s) ∧
        ((r.status < 200 ∨ 300 ≤ r.status) →
          handleResponse sc r s =
            retryOrThrowServerErrorStep sc Thrown.bodyErr
              (runOnNetworkResponse (getMiddlewares sc) s)) ∧
        (200 ≤ r.status → r.status < 300 → sc.hasDecoder = true →
          handleResponse sc r s =
            retryOrThrowServerErrorStep sc Thrown.missingJsonErr
              (runOnNetworkResponse (getMiddlewares sc) s)) ∧
        (200 ≤ r.status → r.status < 300 → sc.hasDecoder = false →
          handleResponse sc r s =
            StepOut.done ResVal.rawTextVal
              (debag sc (runOnNetworkResponse (getMiddlewares sc) s)))) := by
  intro sc r s hct
  refine ⟨?_, ?_, ?_, ?_⟩
  · intro p q d
    simp [handleResponse, hct]
  · intro hst
    have hcond : (decide (r.status < 200) || decide (300 ≤ r.status)) = true := by
      rcases hst with h | h <;> simp [h]
    simp [handleResponse, hct, hcond]
  · intro h1 h2 hd
    have hcond : (decide (r.status < 200) || decide (300 ≤ r.status)) = false := by
      simp only [Bool.or_eq_false_iff, decide_eq_false_iff_not, Nat.not_lt]
      omega
    simp [handleResponse, hct, hcond, hd]
  · intro h1 h2 hd
    have hcond : (decide (r.status < 200) || decide (300 ≤ r.status)) = false := by
      simp only [Bool.or_eq_false_iff, decide_eq_false_iff_not, Nat.not_lt]
      omega
    simp [handleResponse, hct, hcond, hd]

/-- A 404 plain-text response with arbitrary oracle values. -/
def plainTextNotFound : TResponse :=
  { status := 404
    contentType := some "text/plain"
    parseOk := false
    errorDecodeOk := false
    respDecodeOk := false }

/-- Witness for C9: a 404 response with Content-Type "text/plain" goes to the
shared server-error path with the raw-body error. -/
theorem content_type_exact_match_witness :
    handleResponse plainConfig plainTextNotFound freshState =
      retryOrThrowServerErrorStep plainConfig Thrown.bodyErr
        (runOnNetworkResponse (getMiddlewares plainConfig) freshState) :=
  ((content_type_exact_match plainConfig plainTextNotFound freshState (by decide)).2.1
    (Or.inr (by decide)))

lemma escalateTimeout_shouldRetry (t : Nat) (e : CaughtErr) (s : RState) :
    (escalateTimeout t e s).shouldRetry = s.shouldRetry := by
  unfold escalateTimeout
  split_ifs <;> rfl

lemma escalateTimeout_didFailNetwork (t : Nat) (e : CaughtErr) (s : RState) :
    (escalateTimeout t e s).didFailNetwork = s.didFailNetwork := by
  unfold escalateTimeout
  split_ifs <;> rfl

lemma shouldRetryNetworkErrorLoop_true (mws : List MW) :
    ∀ s : RState, shouldRetryNetworkErrorLoop mws true s = (true, s) := by
  induction mws with
  | nil => intro s; rfl
  | cons mw rest ih =>
    intro s
    unfold shouldRetryNetworkErrorLoop
    cases h : mw.shouldRetryNetworkError with
    | none => simp [ih]
    | some hook => simp [ih]

/-- C2 amended: on transport failure, the network-error-retry hooks are
polled in registration order with a short-circuiting OR — once a hook has
answered true no further hook is invoked and the poll result is fixed — and
the loop exits early once shouldRetry is false or didFailNetwork is true
after a middleware; the pipeline restarts if and only if the accumulated
verdict is true and shouldRetry is still true and didFailNetwork still false
when polling ends, and never restarts when retries were not allowed at
entry. -/
theorem network_retry_poll_amended :
    (∀ (mws : List MW) (s : RState), shouldRetryNetworkErrorLoop mws true s = (true, s)) ∧
    (∀ (sc : RequestConfig) (t : Nat) (e : CaughtErr) (s : RState),
      s.shouldRetry = true → s.didFailNetwork = false →
      (isRestartB (handleFailure sc t e s) = true ↔
        ((shouldRetryNetworkErrorLoop (getMiddlewares sc) false (escalateTimeout t e s)).1 = true ∧
          (shouldRetryNetworkErrorLoop (getMiddlewares sc) false
              (escalateTimeout t e s)).2.shouldRetry = true ∧
          (shouldRetryNetworkErrorLoop (getMiddlewares sc) false
              (escalateTimeout t e s)).2.didFailNetwork = false))) ∧
    (∀ (sc : RequestConfig) (t : Nat) (e : CaughtErr) (s : RState),
      s.shouldRetry = false ∨ s.didFailNetwork = true →
      isRestartB (handleFailure sc t e s) = false) := by
  refine ⟨shouldRetryNetworkErrorLoop_true, ?_, ?_⟩
  · intro sc t e s h1 h2
    have e1 : (escalateTimeout t e s).shouldRetry = true := by
      rw [escalateTimeout_shouldRetry]; exact h1
    have e2 : (escalateTimeout t e s).didFailNetwork = false := by
      rw [escalateTimeout_didFailNetwork]; exact h2
    simp only [handleFailure, e1, e2, Bool.not_false, Bool.and_self, if_true]
    cases hp : ((shouldRetryNetworkErrorLoop (getMiddlewares sc) false (escalateTimeout t e s)).1 &&
        (shouldRetryNetworkErrorLoop (getMiddlewares sc) false
          (escalateTimeout t e s)).2.shouldRetry &&
        !(shouldRetryNetworkErrorLoop (getMiddlewares sc) false
          (escalateTimeout t e s)).2.didFailNetwork) with
    | true =>
      simp only [Bool.and_eq_true, Bool.not_eq_true'] at hp
      simp [hp.1.1, hp.1.2, hp.2, isRestartB]
    | false =>
      simp only [hp, Bool.false_eq_true, if_false, isRestartB]
      refine iff_of_false (by simp) ?_
      rintro ⟨a, b, c⟩
      rw [a, b, c] at hp
      simp at hp
  · intro sc t e s h
    rcases h with h | h
    · have e1 : (escalateTimeout t e s).shouldRetry = false := by
        rw [escalateTimeout_shouldRetry]; exact h
      simp [handleFailure, e1, isRestartB]
    · have e2 : (escalateTimeout t e s).didFailNetwork = true := by
        rw [escalateTimeout_didFailNetwork]; exact h
      simp [handleFailure, e2, isRestartB]

lemma shouldRetryErrorLoop_append (mws : List MW) (mw : MW) :
    ∀ (r : Bool) (s : RState),
      shouldRetryErrorLoop (mws ++ [mw]) r s = pollStepError mw (shouldRetryErrorLoop mws r s) := by
  induction mws with
  | nil =>
    intro r s
    cases h : mw.shouldRetryError with
    | none => simp [shouldRetryErrorLoop, pollStepError, h]
    | some hook => cases r <;> simp [shouldRetryErrorLoop, pollStepError, h]
  | cons m rest ih =>
    intro r s
    simp only [List.cons_append]
    unfold shouldRetryErrorLoop
    exact ih _ _

/-- C7 amended: the decodable-error retry hooks are polled only when
shouldRetry or allowErrorRetry holds, with the same short-circuiting OR as
the network-error poll, but without its early exit: every middleware of the
list is processed even after a hook has disabled both gates (witnessed by
the append law below); the pipeline restarts on a true verdict only if
shouldRetry or allowErrorRetry still holds after polling, and otherwise the
request deregisters from its bag and the decoded error is thrown. -/
theorem error_retry_poll_amended :
    (∀ (mws : List MW) (mw : MW) (r : Bool) (s : RState),
      shouldRetryErrorLoop (mws ++ [mw]) r s =
        pollStepError mw (shouldRetryErrorLoop mws r s)) ∧
    (∀ (sc : RequestConfig) (r : TResponse) (s : RState),
      (r.status < 200 ∨ 300 ≤ r.status) → r.contentType = some "application/json" →
      r.parseOk = true → sc.hasErrorDecoder = true → r.errorDecodeOk = true →
      handleResponse sc r s =
        (let s0 := runOnNetworkResponse (getMiddlewares sc) s
         if s0.shouldRetry || s0.allowErrorRetry then
           let p := shouldRetryErrorLoop (getMiddlewares sc) false s0
           if p.1 && (p.2.shouldRetry || p.2.allowErrorRetry) then StepOut.restart p.2
           else StepOut.throwE Thrown.decodedErr (debag sc p.2)
         else StepOut.throwE Thrown.decodedErr (debag sc s0))) := by
  refine ⟨shouldRetryErrorLoop_append, ?_⟩
  intro sc r s hst hct hp hed heok
  have hcond : (decide (r.status < 200) || decide (300 ≤ r.status)) = true := by
    rcases hst with h | h <;> simp [h]
  simp [handleResponse, hct, hcond, parseAndDecodeError, hp, hed, heok]

/-- Witness for C2 amended: at a request with no middleware and a network
error, the restart decision matches the poll verdict (here false). -/
theorem network_retry_poll_amended_witness :
    freshState.shouldRetry = true ∧ freshState.didFailNetwork = false ∧
      (isRestartB (handleFailure plainConfig 10000 (CaughtErr.fetchErr ErrCode.networkError)
          freshState) = true ↔
        ((shouldRetryNetworkErrorLoop (getMiddlewares plainConfig) false
            (escalateTimeout 10000 (CaughtErr.fetchErr ErrCode.networkError) freshState)).1 = true ∧
          (shouldRetryNetworkErrorLoop (getMiddlewares plainConfig) false
            (escalateTimeout 10000 (CaughtErr.fetchErr ErrCode.networkError)
              freshState)).2.shouldRetry = true ∧
          (shouldRetryNetworkErrorLoop (getMiddlewares plainConfig) false
            (escalateTimeout 10000 (CaughtErr.fetchErr ErrCode.networkError)
              freshState)).2.didFailNetwork = false)) :=
  ⟨rfl, rfl,
    network_retry_poll_amended.2.1 plainConfig 10000 (CaughtErr.fetchErr ErrCode.networkError)
      freshState rfl rfl⟩

/-- A 404 JSON response whose body parses and decodes as a structured
error. -/
def decodableNotFound : TResponse :=
  { status := 404
    contentType := some "application/json"
    parseOk := true
    errorDecodeOk := true
    respDecodeOk := false }

/-- Witness for C7 amended: at a 404 decodable-error response of a request
with no middleware, the classification follows the gated no-early-exit poll
shape; the append law instantiated at one middleware. -/
theorem error_retry_poll_amended_witness :
    (shouldRetryErrorLoop ([] ++ [errCexMW2]) false freshState =
      pollStepError errCexMW2 (shouldRetryErrorLoop [] false freshState)) ∧
    handleResponse plainConfig decodableNotFound freshState =
      (let s0 := runOnNetworkResponse (getMiddlewares plainConfig) freshState
       if s0.shouldRetry || s0.allowErrorRetry then
         let p := shouldRetryErrorLoop (getMiddlewares plainConfig) false s0
         if p.1 && (p.2.shouldRetry || p.2.allowErrorRetry) then StepOut.restart p.2
         else StepOut.throwE Thrown.decodedErr (debag plainConfig p.2)
       else StepOut.throwE Thrown.decodedErr (debag plainConfig s0)) :=
  ⟨error_retry_poll_amended.1 [] errCexMW2 false freshState,
    error_retry_poll_amended.2 plainConfig decodableNotFound freshState
      (Or.inr (by decide)) rfl rfl rfl rfl⟩

lemma serverErrorRestart_iff (sc : RequestConfig) (e : Thrown) (s : RState) :
    isRestartB (retryOrThrowServerErrorStep sc e s) = true ↔
      (s.shouldRetry = true ∧
        (shouldRetryServerErrorLoop (getMiddlewares sc) false
            {s with serverErrorPolls := s.serverErrorPolls + 1}).1 = true ∧
        (shouldRetryServerErrorLoop (getMiddlewares sc) false
            {s with serverErrorPolls := s.serverErrorPolls + 1}).2.shouldRetry = true) := by
  simp only [retryOrThrowServerErrorStep]
  split_ifs with h1 h2
  · refine iff_of_true rfl ⟨h1, ?_, ?_⟩
    · exact ((Bool.and_eq_true _ _).mp h2).1
    · exact ((Bool.and_eq_true _ _).mp h2).2
  · refine iff_of_false (by simp [isRestartB]) ?_
    rintro ⟨a, b, c⟩
    exact h2 (by simp [b, c])
  · refine iff_of_false (by simp [isRestartB]) ?_
    rintro ⟨a, b, c⟩
    exact h1 a
lemma serverErrorThrow_shape (sc : RequestConfig) (e : Thrown) (s : RState) :
    isRestartB (retryOrThrowServerErrorStep sc e s) = false →
      ∃ s2, retryOrThrowServerErrorStep sc e s = StepOut.throwE e (debag sc s2) := by
  simp only [retryOrThrowServerErrorStep]
  split_ifs with h1 h2
  · intro habs
    simp [isRestartB] at habs
  · intro _
    exact ⟨_, rfl⟩
  · intro _
    exact ⟨_, rfl⟩

/-- C3 amended: a non-2xx response whose Content-Type is not JSON, a non-2xx
JSON response whose body fails to parse or whose error decoder throws, a 2xx
JSON response whose body fails to parse, and a 2xx non-JSON response while a
response decoder is configured all reach the shared server-error path, where
the error is retried exactly when shouldRetry holds and a
shouldRetryServerError hook approves (with shouldRetry still true after
polling) and is otherwise thrown; a 2xx JSON response whose response decoder
throws does not reach that path — its error propagates directly. -/
theorem server_error_shapes_amended :
    ∀ (sc : RequestConfig) (r : TResponse) (s : RState),
      ((r.status < 200 ∨ 300 ≤ r.status) → r.contentType ≠ some "application/json" →
        handleResponse sc r s =
          retryOrThrowServerErrorStep sc Thrown.bodyErr
            (runOnNetworkResponse (getMiddlewares sc) s)) ∧
      ((r.status < 200 ∨ 300 ≤ r.status) → r.contentType = some "application/json" →
        r.parseOk = false →
        handleResponse sc r s =
          retryOrThrowServerErrorStep sc Thrown.parseErr
            (runOnNetworkResponse (getMiddlewares sc) s)) ∧
      ((r.status < 200 ∨ 300 ≤ r.status) → r.contentType = some "application/json" →
        r.parseOk = true → sc.hasErrorDecoder = true → r.errorDecodeOk = false →
        handleResponse sc r s =
          retryOrThrowServerErrorStep sc Thrown.errorDecodeErr
            (runOnNetworkResponse (getMiddlewares sc) s)) ∧
      (200 ≤ r.status → r.status < 300 → r.contentType = some "application/json" →
        r.parseOk = false →
        handleResponse sc r s =
          retryOrThrowServerErrorStep sc Thrown.parseErr
            (runOnNetworkResponse (getMiddlewares sc) s)) ∧
      (200 ≤ r.status → r.status < 300 → r.contentType ≠ some "application/json" →
        sc.hasDecoder = true →
        handleResponse sc r s =
          retryOrThrowServerErrorStep sc Thrown.missingJsonErr
            (runOnNetworkResponse (getMiddlewares sc) s)) ∧
      (200 ≤ r.status → r.status < 300 → r.contentType = some "application/json" →
        r.parseOk = true → sc.hasDecoder = true → r.respDecodeOk = false →
        handleResponse sc r s =
          StepOut.throwE Thrown.respDecodeErr (runOnNetworkResponse (getMiddlewares sc) s)) ∧
      (∀ e : Thrown,
        (isRestartB (retryOrThrowServerErrorStep sc e s) = true ↔
          (s.shouldRetry = true ∧
            (shouldRetryServerErrorLoop (getMiddlewares sc) false
                {s with serverErrorPolls := s.serverErrorPolls + 1}).1 = true ∧
            (shouldRetryServerErrorLoop (getMiddlewares sc) false
                {s with serverErrorPolls := s.serverErrorPolls + 1}).2.shouldRetry = true)) ∧
        (isRestartB (retryOrThrowServerErrorStep sc e s) = false →
          ∃ s2, retryOrThrowServerErrorStep sc e s = StepOut.throwE e (debag sc s2))) := by
  intro sc r s
  refine ⟨?_, ?_, ?_, ?_, ?_, ?_, ?_⟩
  · intro hst hct
    have hcond : (decide (r.status < 200) || decide (300 ≤ r.status)) = true := by
      rcases hst with h | h <;> simp [h]
    simp [handleResponse, hct, hcond]
  · intro hst hct hp
    have hcond : (decide (r.status < 200) || decide (300 ≤ r.status)) = true := by
      rcases hst with h | h <;> simp [h]
    simp [handleResponse, hct, hcond, parseAndDecodeError, hp]
  · intro hst hct hp hed heok
    have hcond : (decide (r.status < 200) || decide (300 ≤ r.status)) = true := by
      rcases hst with h | h <;> simp [h]
    simp [handleResponse, hct, hcond, parseAndDecodeError, hp, hed, heok]
  · intro h1 h2 hct hp
    have hcond : (decide (r.status < 200) || decide (300 ≤ r.status)) = false := by
      simp only [Bool.or_eq_false_iff, decide_eq_false_iff_not, Nat.not_lt]
      omega
    simp [handleResponse, hct, hcond, hp]
  · intro h1 h2 hct hd
    have hcond : (decide (r.status < 200) || decide (300 ≤ r.status)) = false := by
      simp only [Bool.or_eq_false_iff, decide_eq_false_iff_not, Nat.not_lt]
      omega
    simp [handleResponse, hct, hcond, hd]
  · intro h1 h2 hct hp hd hrd
    have hcond : (decide (r.status < 200) || decide (300 ≤ r.status)) = false := by
      simp only [Bool.or_eq_false_iff, decide_eq_false_iff_not, Nat.not_lt]
      omega
    simp [handleResponse, hct, hcond, hp, hd, hrd]
  · exact fun e => ⟨serverErrorRestart_iff sc e s, serverErrorThrow_shape sc e s⟩

/-- Witness for C3 amended: a 500 JSON response whose body fails to parse
goes to the shared server-error path with the parse error. -/
theorem server_error_shapes_amended_witness :
    handleResponse plainConfig
        { status := 500, contentType := some "application/json", parseOk := false,
          errorDecodeOk := false, respDecodeOk := false } freshState =
      retryOrThrowServerErrorStep plainConfig Thrown.parseErr
        (runOnNetworkResponse (getMiddlewares plainConfig) freshState) :=
  ((server_error_shapes_amended plainConfig
      { status := 500, contentType := some "application/json", parseOk := false,
        errorDecodeOk := false, respDecodeOk := false } freshState).2.1
    (Or.inr (by decide)) rfl rfl)

lemma debag_inBag (sc : RequestConfig) (s : RState) (h : sc.hasBag = true) :
    (debag sc s).inBag = false := by
  simp [debag, h]

/-- A stage outcome whose throw and return arms have already detached the
request from its bag, with the single exception of the response-decoder
failure throw. -/
def detachedStep : StepOut → Prop
  | StepOut.restart _ => True
  | StepOut.throwE e s => e = Thrown.respDecodeErr ∨ s.inBag = false
  | StepOut.done _ s => s.inBag = false

lemma retryOrThrowServerErrorStep_detached (sc : RequestConfig) (e : Thrown) (s : RState)
    (h : sc.hasBag = true) : detachedStep (retryOrThrowServerErrorStep sc e s) := by
  simp only [retryOrThrowServerErrorStep]
  split_ifs <;> simp [detachedStep, debag, h]

lemma handleFailure_detached (sc : RequestConfig) (t : Nat) (e : CaughtErr) (s : RState)
    (h : sc.hasBag = true) : detachedStep (handleFailure sc t e s) := by
  simp only [handleFailure]
  split_ifs <;> simp [detachedStep, debag, h]

lemma handleResponse_detached (sc : RequestConfig) (r : TResponse) (s : RState)
    (h : sc.hasBag = true) : detachedStep (handleResponse sc r s) := by
  simp only [handleResponse]
  cases hpd : parseAndDecodeError sc r with
  | error e =>
    split_ifs <;>
      first
        | exact retryOrThrowServerErrorStep_detached _ _ _ h
        | simp [detachedStep, debag, h]
  | ok err =>
    split_ifs <;>
      first
        | exact retryOrThrowServerErrorStep_detached _ _ _ h
        | simp [detachedStep, debag, h]

/-- C1 amended: for every request associated with a bag, every terminal
outcome of start() has removed the request from its bag before control
returns — except the path where a configured response decoder throws on a
2xx JSON body, whose error propagates without deregistration. -/
theorem bag_removal_amended :
    ∀ (fuel : Nat) (sc : RequestConfig) (s : RState) (attempts : List AttemptOutcome),
      sc.hasBag = true → detachedResult (startModel fuel sc s attempts) := by
  intro fuel
  induction fuel with
  | zero =>
    intro sc s attempts h
    simp [startModel, detachedResult]
  | succ n ih =>
    intro sc s attempts h
    simp only [startModel]
    set s1 := runOnBeforeRequest (getMiddlewares sc) s with hs1
    set t0 := defaultTimeout sc s1 with ht0
    cases henc : encodeBody sc t0 s1 with
    | encThrow s2 =>
      dsimp only
      have hd := handleFailure_detached sc t0 CaughtErr.encodingErr s2 h
      cases hout : handleFailure sc t0 CaughtErr.encodingErr s2 with
      | restart s3 =>
        dsimp only
        exact ih sc s3 attempts h
      | throwE e s3 =>
        rw [hout] at hd
        simpa [detachedResult, detachedStep] using hd
      | done v s3 =>
        rw [hout] at hd
        simpa [detachedResult, detachedStep] using hd
    | encOk t s2 =>
      dsimp only
      cases attempts with
      | nil => simp [detachedResult]
      | cons a rest =>
        cases a with
        | failure c =>
          dsimp only
          have hd := handleFailure_detached sc t (CaughtErr.fetchErr c)
            (applyAbortFlag c (recordAttempt t s2)) h
          cases hout : handleFailure sc t (CaughtErr.fetchErr c)
              (applyAbortFlag c (recordAttempt t s2)) with
          | restart s3 =>
            dsimp only
            exact ih sc s3 rest h
          | throwE e s3 =>
            rw [hout] at hd
            simpa [detachedResult, detachedStep] using hd
          | done v s3 =>
            rw [hout] at hd
            simpa [detachedResult, detachedStep] using hd
        | success r =>
          dsimp only
          have hd := handleResponse_detached sc r (recordAttempt t s2) h
          cases hout : handleResponse sc r (recordAttempt t s2) with
          | restart s3 =>
            dsimp only
            exact ih sc s3 rest h
          | throwE e s3 =>
            rw [hout] at hd
            simpa [detachedResult, detachedStep] using hd
          | done v s3 =>
            rw [hout] at hd
            simpa [detachedResult, detachedStep] using hd

/-- Witness for C1 amended: the example request (which has a bag) terminates
detached from its bag on a failed transport attempt. -/
theorem bag_removal_amended_witness :
    plainConfig.hasBag = true ∧
      detachedResult (startModel 1 plainConfig freshState
        [AttemptOutcome.failure ErrCode.networkError]) :=
  ⟨rfl, bag_removal_amended 1 plainConfig freshState
    [AttemptOutcome.failure ErrCode.networkError] rfl⟩

/-- The request state carried inside a stage outcome. -/
def stepOutState : StepOut → RState
  | StepOut.restart s => s
  | StepOut.throwE _ s => s
  | StepOut.done _ s => s

/-- A state-transforming hook that leaves the stored timeout, the
timeout-seen flag and the attempt-timeout trace untouched. -/
def preservesTimeoutFn (f : RState → RState) : Prop :=
  ∀ s, (f s).timeout = s.timeout ∧ (f s).sawTimeout = s.sawTimeout ∧
    (f s).attemptTimeouts = s.attemptTimeouts

/-- A decision hook that leaves the stored timeout, the timeout-seen flag and
the attempt-timeout trace untouched. -/
def preservesTimeoutHook (f : RState → Bool × RState) : Prop :=
  ∀ s, ((f s).2).timeout = s.timeout ∧ ((f s).2).sawTimeout = s.sawTimeout ∧
    ((f s).2).attemptTimeouts = s.attemptTimeouts

/-- A middleware none of whose hooks manages the stored timeout themselves. -/
structure MWPreservesTimeout (mw : MW) : Prop where
  before : ∀ f, mw.onBeforeRequest = some f → preservesTimeoutFn f
  net : ∀ f, mw.shouldRetryNetworkError = some f → preservesTimeoutHook f
  err : ∀ f, mw.shouldRetryError = some f → preservesTimeoutHook f
  srv : ∀ f, mw.shouldRetryServerError = some f → preservesTimeoutHook f
  fatal : ∀ f, mw.onFatalNetworkError = some f → preservesTimeoutFn f
  onResp : ∀ f, mw.onNetworkResponse = some f → preservesTimeoutFn f

/-- All middlewares of a request leave the timeout management to the core. -/
def configPreservesTimeout (sc : RequestConfig) : Prop :=
  ∀ mw ∈ getMiddlewares sc, MWPreservesTimeout mw

/-- The stored timeout never decreases. -/
def timeoutLE (s s' : RState) : Prop :=
  ∀ t, s.timeout = some t → ∃ u, s'.timeout = some u ∧ t ≤ u

/-- Once a timeout failure has been seen, the stored timeout is set and at
least 30 000 ms. -/
def timeoutInv (s : RState) : Prop :=
  s.sawTimeout = true → ∃ t, s.timeout = some t ∧ 30000 ≤ t

/-- How the timeout state may evolve across any piece of the pipeline: the
stored timeout never decreases, the timeout-seen flag is monotone, the
30 000 ms floor invariant is preserved, and every attempt-timeout entry
recorded after a timeout failure (flag true) is at least 30 000 ms. -/
def timeoutEvolution (s s' : RState) : Prop :=
  timeoutLE s s' ∧
  (s.sawTimeout = true → s'.sawTimeout = true) ∧
  (timeoutInv s → timeoutInv s') ∧
  ∃ new, s'.attemptTimeouts = s.attemptTimeouts ++ new ∧
    (timeoutInv s → ∀ p ∈ new, p.2 = true → 30000 ≤ p.1)

lemma timeoutEvolution_refl (s : RState) : timeoutEvolution s s := by
  refine ⟨fun t h => ⟨t, h, le_refl t⟩, id, id, [], by simp, ?_⟩
  intro _ p hp
  exact absurd hp (List.not_mem_nil p)

lemma timeoutEvolution_trans {s1 s2 s3 : RState} (h12 : timeoutEvolution s1 s2)
    (h23 : timeoutEvolution s2 s3) : timeoutEvolution s1 s3 := by
  obtain ⟨le12, saw12, inv12, new1, tr1, pr1⟩ := h12
  obtain ⟨le23, saw23, inv23, new2, tr2, pr2⟩ := h23
  refine ⟨?_, fun h => saw23 (saw12 h), fun h => inv23 (inv12 h), new1 ++ new2, ?_, ?_⟩
  · intro t h
    obtain ⟨u, hu, htu⟩ := le12 t h
    obtain ⟨v, hv, huv⟩ := le23 u hu
    exact ⟨v, hv, le_trans htu huv⟩
  · rw [tr2, tr1, List.append_assoc]
  · intro hinv p hp hflag
    rcases List.mem_append.mp hp with h | h
    · exact pr1 hinv p h hflag
    · exact pr2 (inv12 hinv) p h hflag

lemma timeoutEvolution_of_eq {s s' : RState} (ht : s'.timeout = s.timeout)
    (hs : s'.sawTimeout = s.sawTimeout) (ha : s'.attemptTimeouts = s.attemptTimeouts) :
    timeoutEvolution s s' := by
  refine ⟨?_, ?_, ?_, [], by simp [ha], ?_⟩
  · intro t h
    exact ⟨t, by rw [ht, h], le_refl t⟩
  · intro h
    rw [hs]
    exact h
  · intro hinv h
    rw [hs] at h
    obtain ⟨t, h1, h2⟩ := hinv h
    exact ⟨t, by rw [ht, h1], h2⟩
  · intro _ p hp
    exact absurd hp (List.not_mem_nil p)

lemma preservesTimeoutFn_evolution {f : RState → RState} (hf : preservesTimeoutFn f)
    (s : RState) : timeoutEvolution s (f s) :=
  timeoutEvolution_of_eq (hf s).1 (hf s).2.1 (hf s).2.2

lemma debag_evolution (sc : RequestConfig) (s : RState) : timeoutEvolution s (debag sc s) := by
  unfold debag
  split_ifs
  · exact timeoutEvolution_of_eq rfl rfl rfl
  · exact timeoutEvolution_refl s

lemma runOnBeforeRequest_evolution :
    ∀ mws : List MW, (∀ mw ∈ mws, MWPreservesTimeout mw) →
      ∀ s, timeoutEvolution s (runOnBeforeRequest mws s) := by
  intro mws
  induction mws with
  | nil => intro _ s; exact timeoutEvolution_refl s
  | cons mw rest ih =>
    intro h s
    have hmw := h mw (List.mem_cons_self mw rest)
    have hrest := fun m hm => h m (List.mem_cons_of_mem mw hm)
    unfold runOnBeforeRequest
    cases hh : mw.onBeforeRequest with
    | none => exact ih hrest s
    | some f =>
      exact timeoutEvolution_trans (preservesTimeoutFn_evolution (hmw.before f hh) s)
        (ih hrest (f s))

lemma runOnNetworkResponse_evolution :
    ∀ mws : List MW, (∀ mw ∈ mws, MWPreservesTimeout mw) →
      ∀ s, timeoutEvolution s (runOnNetworkResponse mws s) := by
  intro mws
  induction mws with
  | nil => intro _ s; exact timeoutEvolution_refl s
  | cons mw rest ih =>
    intro h s
    have hmw := h mw (List.mem_cons_self mw rest)
    have hrest := fun m hm => h m (List.mem_cons_of_mem mw hm)
    unfold runOnNetworkResponse
    cases hh : mw.onNetworkResponse with
    | none => exact ih hrest s
    | some f =>
      exact timeoutEvolution_trans (preservesTimeoutFn_evolution (hmw.onResp f hh) s)
        (ih hrest (f s))

lemma runOnFatalNetworkError_evolution :
    ∀ mws : List MW, (∀ mw ∈ mws, MWPreservesTimeout mw) →
      ∀ s, timeoutEvolution s (runOnFatalNetworkError mws s) := by
  intro mws
  induction mws with
  | nil => intro _ s; exact timeoutEvolution_refl s
  | cons mw rest ih =>
    intro h s
    have hmw := h mw (List.mem_cons_self mw rest)
    have hrest := fun m hm => h m (List.mem_cons_of_mem mw hm)
    unfold runOnFatalNetworkError
    cases hh : mw.onFatalNetworkError with
    | none => exact ih hrest s
    | some f =>
      exact timeoutEvolution_trans (preservesTimeoutFn_evolution (hmw.fatal f hh) s)
        (ih hrest (f s))

lemma shouldRetryNetworkErrorLoop_evolution :
    ∀ mws : List MW, (∀ mw ∈ mws, MWPreservesTimeout mw) →
      ∀ (r : Bool) (s : RState), timeoutEvolution s (shouldRetryNetworkErrorLoop mws r s).2 := by
  intro mws
  induction mws with
  | nil => intro _ r s; exact timeoutEvolution_refl s
  | cons mw rest ih =>
    intro h r s
    have hmw := h mw (List.mem_cons_self mw rest)
    have hrest := fun m hm => h m (List.mem_cons_of_mem mw hm)
    unfold shouldRetryNetworkErrorLoop
    cases hh : mw.shouldRetryNetworkError with
    | none =>
      dsimp only
      split
      · exact timeoutEvolution_refl s
      · exact ih hrest r s
    | some f =>
      have hf := hmw.net f hh
      dsimp only
      cases r with
      | true =>
        split
        · exact timeoutEvolution_refl s
        · exact ih hrest _ _
      | false =>
        have he : timeoutEvolution s (f s).2 :=
          timeoutEvolution_of_eq (hf s).1 (hf s).2.1 (hf s).2.2
        split
        · exact he
        · exact timeoutEvolution_trans he (ih hrest _ _)

lemma shouldRetryErrorLoop_evolution :
    ∀ mws : List MW, (∀ mw ∈ mws, MWPreservesTimeout mw) →
      ∀ (r : Bool) (s : RState), timeoutEvolution s (shouldRetryErrorLoop mws r s).2 := by
  intro mws
  induction mws with
  | nil => intro _ r s; exact timeoutEvolution_refl s
  | cons mw rest ih =>
    intro h r s
    have hmw := h mw (List.mem_cons_self mw rest)
    have hrest := fun m hm => h m (List.mem_cons_of_mem mw hm)
    unfold shouldRetryErrorLoop
    cases hh : mw.shouldRetryError with
    | none =>
      dsimp only
      exact ih hrest r s
    | some f =>
      have hf := hmw.err f hh
      dsimp only
      cases r with
      | true => exact ih hrest _ _
      | false =>
        have he : timeoutEvolution s (f s).2 :=
          timeoutEvolution_of_eq (hf s).1 (hf s).2.1 (hf s).2.2
        exact timeoutEvolution_trans he (ih hrest _ _)

lemma shouldRetryServerErrorLoop_evolution :
    ∀ mws : List MW, (∀ mw ∈ mws, MWPreservesTimeout mw) →
      ∀ (r : Bool) (s : RState), timeoutEvolution s (shouldRetryServerErrorLoop mws r s).2 := by
  intro mws
  induction mws with
  | nil => intro _ r s; exact timeoutEvolution_refl s
  | cons mw rest ih =>
    intro h r s
    have hmw := h mw (List.mem_cons_self mw rest)
    have hrest := fun m hm => h m (List.mem_cons_of_mem mw hm)
    unfold shouldRetryServerErrorLoop
    cases hh : mw.shouldRetryServerError with
    | none =>
      dsimp only
      exact ih hrest r s
    | some f =>
      have hf := hmw.srv f hh
      dsimp only
      cases r with
      | true => exact ih hrest _ _
      | false =>
        have he : timeoutEvolution s (f s).2 :=
          timeoutEvolution_of_eq (hf s).1 (hf s).2.1 (hf s).2.2
        exact timeoutEvolution_trans he (ih hrest _ _)

lemma defaultTimeout_of_some (sc : RequestConfig) (s : RState) (u : Nat)
    (h : s.timeout = some u) : defaultTimeout sc s = u := by
  unfold defaultTimeout
  rw [h]

lemma encodeBody_encOk_fields (sc : RequestConfig) (t0 : Nat) (s : RState) (t : Nat) (s2 : RState)
    (h : encodeBody sc t0 s = EncodeOut.encOk t s2) :
    t0 ≤ t ∧ s2.timeout = s.timeout ∧ s2.sawTimeout = s.sawTimeout ∧
      s2.attemptTimeouts = s.attemptTimeouts := by
  unfold encodeBody at h
  cases hb : sc.body with
  | noBody =>
    rw [hb] at h
    dsimp only at h
    cases h
    exact ⟨le_refl t0, rfl, rfl, rfl⟩
  | formData sizes =>
    rw [hb] at h
    dsimp only at h
    split_ifs at h
    · cases h
      exact ⟨le_max_left _ _, rfl, rfl, rfl⟩
    · cases h
      exact ⟨le_refl t0, rfl, rfl, rfl⟩
  | structured enc =>
    rw [hb] at h
    dsimp only at h
    split_ifs at h
    · cases enc with
      | none => cases h
      | some e =>
        cases h
        exact ⟨le_refl t0, rfl, rfl, rfl⟩
    · cases h
      exact ⟨le_refl t0, rfl, rfl, rfl⟩

lemma encodeBody_encThrow_state (sc : RequestConfig) (t0 : Nat) (s : RState) (s2 : RState)
    (h : encodeBody sc t0 s = EncodeOut.encThrow s2) : s2 = s := by
  unfold encodeBody at h
  cases hb : sc.body with
  | noBody =>
    rw [hb] at h
    cases h
  | formData sizes =>
    rw [hb] at h
    dsimp only at h
    split_ifs at h
  | structured enc =>
    rw [hb] at h
    dsimp only at h
    split_ifs at h
    cases enc with
    | none =>
      cases h
      rfl
    | some e => cases h

lemma fatalBlock_evolution (mws : List MW) (h : ∀ mw ∈ mws, MWPreservesTimeout mw)
    (s : RState) :
    timeoutEvolution s
      (runOnFatalNetworkError mws {s with didFailNetwork := true, fatalRounds := s.fatalRounds + 1}) :=
  timeoutEvolution_trans
    (@timeoutEvolution_of_eq s {s with didFailNetwork := true, fatalRounds := s.fatalRounds + 1}
      rfl rfl rfl)
    (runOnFatalNetworkError_evolution mws h
      {s with didFailNetwork := true, fatalRounds := s.fatalRounds + 1})

lemma handleFailure_evolution (sc : RequestConfig) (t : Nat) (e : CaughtErr) (s : RState)
    (h : ∀ mw ∈ getMiddlewares sc, MWPreservesTimeout mw)
    (hbound : ∀ u, s.timeout = some u → u ≤ t) :
    timeoutEvolution s (stepOutState (handleFailure sc t e s)) := by
  have hesc : timeoutEvolution s (escalateTimeout t e s) := by
    unfold escalateTimeout
    split_ifs with he
    · refine ⟨?_, ?_, ?_, [], by simp, ?_⟩
      · intro u hu
        exact ⟨max t 30000, rfl, le_trans (hbound u hu) (le_max_left _ _)⟩
      · intro _
        rfl
      · intro _ _
        exact ⟨max t 30000, rfl, le_max_right _ _⟩
      · intro _ p hp
        exact absurd hp (List.not_mem_nil p)
    · exact timeoutEvolution_refl s
  unfold handleFailure
  dsimp only
  split
  · have hbase := timeoutEvolution_trans hesc
      (shouldRetryNetworkErrorLoop_evolution (getMiddlewares sc) h false (escalateTimeout t e s))
    split
    · exact hbase
    · refine timeoutEvolution_trans hbase (timeoutEvolution_trans ?_ (debag_evolution sc _))
      split
      · exact fatalBlock_evolution _ h _
      · exact timeoutEvolution_refl _
  · split
    · exact hesc
    · refine timeoutEvolution_trans hesc (timeoutEvolution_trans ?_ (debag_evolution sc _))
      split
      · exact fatalBlock_evolution _ h _
      · exact timeoutEvolution_refl _

lemma retryOrThrowServerErrorStep_evolution (sc : RequestConfig) (e : Thrown) (s : RState)
    (h : ∀ mw ∈ getMiddlewares sc, MWPreservesTimeout mw) :
    timeoutEvolution s (stepOutState (retryOrThrowServerErrorStep sc e s)) := by
  have h0 : timeoutEvolution s {s with serverErrorPolls := s.serverErrorPolls + 1} :=
    timeoutEvolution_of_eq rfl rfl rfl
  unfold retryOrThrowServerErrorStep
  dsimp only
  split
  · split
    · exact timeoutEvolution_trans h0 (shouldRetryServerErrorLoop_evolution _ h false _)
    · exact timeoutEvolution_trans h0
        (timeoutEvolution_trans (shouldRetryServerErrorLoop_evolution _ h false _)
          (debag_evolution sc _))
  · exact timeoutEvolution_trans h0 (debag_evolution sc _)

lemma handleResponse_evolution (sc : RequestConfig) (r : TResponse) (s : RState)
    (h : ∀ mw ∈ getMiddlewares sc, MWPreservesTimeout mw) :
    timeoutEvolution s (stepOutState (handleResponse sc r s)) := by
  have h0 := runOnNetworkResponse_evolution (getMiddlewares sc) h s
  unfold handleResponse
  dsimp only
  split
  · split
    · cases hpd : parseAndDecodeError sc r with
      | error e0 =>
        exact timeoutEvolution_trans h0 (retryOrThrowServerErrorStep_evolution sc e0 _ h)
      | ok err =>
        dsimp only
        split
        · split
          · exact timeoutEvolution_trans h0 (shouldRetryErrorLoop_evolution _ h false _)
          · exact timeoutEvolution_trans h0
              (timeoutEvolution_trans (shouldRetryErrorLoop_evolution _ h false _)
                (debag_evolution sc _))
        · exact timeoutEvolution_trans h0 (debag_evolution sc _)
    · exact timeoutEvolution_trans h0
        (retryOrThrowServerErrorStep_evolution sc Thrown.bodyErr _ h)
  · split
    · split
      · split
        · split
          · exact timeoutEvolution_trans h0 (debag_evolution sc _)
          · exact h0
        · exact timeoutEvolution_trans h0 (debag_evolution sc _)
      · exact timeoutEvolution_trans h0
          (retryOrThrowServerErrorStep_evolution sc Thrown.parseErr _ h)
    · split
      · exact timeoutEvolution_trans h0
          (retryOrThrowServerErrorStep_evolution sc Thrown.missingJsonErr _ h)
      · exact timeoutEvolution_trans h0 (debag_evolution sc _)

lemma applyAbortFlag_fields (c : ErrCode) (s : RState) :
    (applyAbortFlag c s).timeout = s.timeout ∧ (applyAbortFlag c s).sawTimeout = s.sawTimeout ∧
      (applyAbortFlag c s).attemptTimeouts = s.attemptTimeouts := by
  unfold applyAbortFlag
  split_ifs <;> exact ⟨rfl, rfl, rfl⟩

/-- C5: whenever a transport attempt fails with a timeout error, the stored
timeout becomes the maximum of the attempt's effective timeout and 30 000 ms
(applied in the catch handler before any retry decision — `handleFailure`
escalates first, then polls); hence, provided middleware hooks leave the
stored timeout alone, across every run of start() the stored timeout never
decreases, once a timeout has been seen it stays at least 30 000 ms, and
every transport attempt recorded after the first timeout used at least
30 000 ms. -/
theorem timeout_escalation_monotone :
    (∀ (t : Nat) (s : RState),
      (escalateTimeout t (CaughtErr.fetchErr ErrCode.networkTimeout) s).timeout =
        some (max t 30000) ∧
      (escalateTimeout t (CaughtErr.fetchErr ErrCode.networkTimeout) s).sawTimeout = true) ∧
    (∀ (fuel : Nat) (sc : RequestConfig) (s : RState) (attempts : List AttemptOutcome),
      configPreservesTimeout sc →
      timeoutEvolution s (startModel fuel sc s attempts).2) := by
  constructor
  · intro t s
    constructor <;> simp [escalateTimeout]
  · intro fuel
    induction fuel with
    | zero =>
      intro sc s attempts _
      exact timeoutEvolution_refl s
    | succ n ih =>
      intro sc s attempts hcfg
      have h : ∀ mw ∈ getMiddlewares sc, MWPreservesTimeout mw := hcfg
      simp only [startModel]
      set s1 := runOnBeforeRequest (getMiddlewares sc) s with hs1
      have hs1ev : timeoutEvolution s s1 := runOnBeforeRequest_evolution _ h s
      set t0 := defaultTimeout sc s1 with ht0
      cases henc : encodeBody sc t0 s1 with
      | encThrow s2 =>
        dsimp only
        have hs2 : s2 = s1 := encodeBody_encThrow_state sc t0 s1 s2 henc
        have hbound : ∀ u, s2.timeout = some u → u ≤ t0 := by
          intro u hu
          rw [hs2] at hu
          rw [ht0, defaultTimeout_of_some sc s1 u hu]
        have hfe := handleFailure_evolution sc t0 CaughtErr.encodingErr s2 h hbound
        have hpre : timeoutEvolution s s2 := by
          rw [hs2]
          exact hs1ev
        cases hout : handleFailure sc t0 CaughtErr.encodingErr s2 with
        | restart s3 =>
          dsimp only
          rw [hout] at hfe
          exact timeoutEvolution_trans hpre (timeoutEvolution_trans hfe (ih sc s3 attempts hcfg))
        | throwE e s3 =>
          rw [hout] at hfe
          exact timeoutEvolution_trans hpre hfe
        | done v s3 =>
          rw [hout] at hfe
          exact timeoutEvolution_trans hpre hfe
      | encOk t s2 =>
        dsimp only
        have hef := encodeBody_encOk_fields sc t0 s1 t s2 henc
        have hs2ev : timeoutEvolution s1 s2 :=
          timeoutEvolution_of_eq hef.2.1 hef.2.2.1 hef.2.2.2
        have hpre : timeoutEvolution s s2 := timeoutEvolution_trans hs1ev hs2ev
        have hrec : timeoutEvolution s2 (recordAttempt t s2) := by
          refine ⟨?_, ?_, ?_, [(t, s2.sawTimeout)], rfl, ?_⟩
          · intro u hu
            exact ⟨u, hu, le_refl u⟩
          · intro hh
            exact hh
          · intro hinv hh
            exact hinv hh
          · intro hinv p hp hflag
            have hp2 : p = (t, s2.sawTimeout) := by simpa using hp
            subst hp2
            obtain ⟨u, hu, h30⟩ := hinv hflag
            have hu1 : s1.timeout = some u := by
              rw [← hef.2.1]
              exact hu
            have ht0u : t0 = u := by
              rw [ht0]
              exact defaultTimeout_of_some sc s1 u hu1
            calc (30000 : Nat) ≤ u := h30
              _ = t0 := ht0u.symm
              _ ≤ t := hef.1
        cases attempts with
        | nil => exact hpre
        | cons a rest =>
          cases a with
          | failure c =>
            dsimp only
            have habort : timeoutEvolution (recordAttempt t s2)
                (applyAbortFlag c (recordAttempt t s2)) := by
              obtain ⟨a1, a2, a3⟩ := applyAbortFlag_fields c (recordAttempt t s2)
              exact timeoutEvolution_of_eq a1 a2 a3
            have hbound : ∀ u, (applyAbortFlag c (recordAttempt t s2)).timeout = some u → u ≤ t := by
              intro u hu
              rw [(applyAbortFlag_fields c (recordAttempt t s2)).1] at hu
              have hu2 : s2.timeout = some u := hu
              have hu1 : s1.timeout = some u := by
                rw [← hef.2.1]
                exact hu2
              calc u = t0 := by rw [ht0]; exact (defaultTimeout_of_some sc s1 u hu1).symm
                _ ≤ t := hef.1
            have hfe := handleFailure_evolution sc t (CaughtErr.fetchErr c)
              (applyAbortFlag c (recordAttempt t s2)) h hbound
            have hpre2 : timeoutEvolution s (applyAbortFlag c (recordAttempt t s2)) :=
              timeoutEvolution_trans hpre (timeoutEvolution_trans hrec habort)
            cases hout : handleFailure sc t (CaughtErr.fetchErr c)
                (applyAbortFlag c (recordAttempt t s2)) with
            | restart s3 =>
              dsimp only
              rw [hout] at hfe
              exact timeoutEvolution_trans hpre2 (timeoutEvolution_trans hfe (ih sc s3 rest hcfg))
            | throwE e s3 =>
              rw [hout] at hfe
              exact timeoutEvolution_trans hpre2 hfe
            | done v s3 =>
              rw [hout] at hfe
              exact timeoutEvolution_trans hpre2 hfe
          | success r =>
            dsimp only
            have hfe := handleResponse_evolution sc r (recordAttempt t s2) h
            have hpre2 : timeoutEvolution s (recordAttempt t s2) :=
              timeoutEvolution_trans hpre hrec
            cases hout : handleResponse sc r (recordAttempt t s2) with
            | restart s3 =>
              dsimp only
              rw [hout] at hfe
              exact timeoutEvolution_trans hpre2 (timeoutEvolution_trans hfe (ih sc s3 rest hcfg))
            | throwE e s3 =>
              rw [hout] at hfe
              exact timeoutEvolution_trans hpre2 hfe
            | done v s3 =>
              rw [hout] at hfe
              exact timeoutEvolution_trans hpre2 hfe

/-- Witness for C5: the escalation equation at a concrete timeout failure,
and the evolution conclusion on a concrete run that times out once and then
succeeds. -/
theorem timeout_escalation_monotone_witness :
    (escalateTimeout 10000 (CaughtErr.fetchErr ErrCode.networkTimeout) freshState).timeout =
      some (max 10000 30000) ∧
    configPreservesTimeout plainConfig ∧
    timeoutEvolution freshState
      (startModel 2 plainConfig freshState
        [AttemptOutcome.failure ErrCode.networkTimeout,
          AttemptOutcome.success badDecodeResponse]).2 :=
  ⟨(timeout_escalation_monotone.1 10000 freshState).1,
    fun mw hm => absurd hm (List.not_mem_nil mw),
    timeout_escalation_monotone.2 2 plainConfig freshState
      [AttemptOutcome.failure ErrCode.networkTimeout, AttemptOutcome.success badDecodeResponse]
      (fun mw hm => absurd hm (List.not_mem_nil mw))⟩

lemma getHeader_setHeader_self (hs : Headers) (k v : String) :
    getHeader (setHeader hs k v) k = some v := by
  induction hs with
  | nil => simp [setHeader, getHeader]
  | cons p rest ih =>
    by_cases hk : p.1 = k
    · simp [setHeader, getHeader, hk]
    · simp [setHeader, getHeader, hk, ih]

lemma getHeader_setHeader_other (hs : Headers) (k v k2 : String) (h : k2 ≠ k) :
    getHeader (setHeader hs k v) k2 = getHeader hs k2 := by
  have h2 : k ≠ k2 := Ne.symm h
  induction hs with
  | nil => simp [setHeader, getHeader, h2]
  | cons p rest ih =>
    by_cases hk : p.1 = k
    · subst hk
      simp [setHeader, getHeader, h2]
    · by_cases hk2 : p.1 = k2
      · simp [setHeader, getHeader, hk, hk2, h]
      · simp [setHeader, getHeader, hk, hk2, h, ih]

/-- The headers carry the JSON content type set by the body encoder, and
every other key agrees with the base header mapping. -/
def headersJsonH (base hs : Headers) : Prop :=
  getHeader hs "Content-Type" = some "application/json;charset=utf-8" ∧
  ∀ k, k ≠ "Content-Type" → getHeader hs k = getHeader base k

lemma headersJsonH_set_self (base : Headers) :
    headersJsonH base (setHeader base "Content-Type" "application/json;charset=utf-8") := by
  constructor
  · exact getHeader_setHeader_self base _ _
  · intro k hk
    exact getHeader_setHeader_other base _ _ k hk

lemma headersJsonH_set_keep (base hs : Headers) (h : headersJsonH base hs) :
    headersJsonH base (setHeader hs "Content-Type" "application/json;charset=utf-8") := by
  constructor
  · exact getHeader_setHeader_self hs _ _
  · intro k hk
    rw [getHeader_setHeader_other hs _ _ k hk]
    exact h.2 k hk

set_option maxRecDepth 4000 in
lemma contentTypeIsUrlencoded_of_json (hs : Headers)
    (h : getHeader hs "Content-Type" = some "application/json;charset=utf-8") :
    contentTypeIsUrlencoded hs = false := by
  unfold contentTypeIsUrlencoded
  rw [h]
  decide

/-- A state-transforming hook that leaves the headers untouched. -/
def preservesHeadersFn (f : RState → RState) : Prop :=
  ∀ s, (f s).headers = s.headers

/-- A decision hook that leaves the headers untouched. -/
def preservesHeadersHook (f : RState → Bool × RState) : Prop :=
  ∀ s, ((f s).2).headers = s.headers

/-- A middleware none of whose hooks rewrites the request headers. -/
structure MWPreservesHeaders (mw : MW) : Prop where
  before : ∀ f, mw.onBeforeRequest = some f → preservesHeadersFn f
  net : ∀ f, mw.shouldRetryNetworkError = some f → preservesHeadersHook f
  err : ∀ f, mw.shouldRetryError = some f → preservesHeadersHook f
  srv : ∀ f, mw.shouldRetryServerError = some f → preservesHeadersHook f
  fatal : ∀ f, mw.onFatalNetworkError = some f → preservesHeadersFn f
  onResp : ∀ f, mw.onNetworkResponse = some f → preservesHeadersFn f

/-- All middlewares of a request leave the headers to the core. -/
def configPreservesHeaders (sc : RequestConfig) : Prop :=
  ∀ mw ∈ getMiddlewares sc, MWPreservesHeaders mw

lemma runOnBeforeRequest_headers :
    ∀ mws : List MW, (∀ mw ∈ mws, MWPreservesHeaders mw) →
      ∀ s, (runOnBeforeRequest mws s).headers = s.headers := by
  intro mws
  induction mws with
  | nil => intro _ s; rfl
  | cons mw rest ih =>
    intro h s
    have hmw := h mw (List.mem_cons_self mw rest)
    have hrest := fun m hm => h m (List.mem_cons_of_mem mw hm)
    unfold runOnBeforeRequest
    cases hh : mw.onBeforeRequest with
    | none => exact ih hrest s
    | some f =>
      rw [ih hrest (f s), hmw.before f hh s]

lemma runOnNetworkResponse_headers :
    ∀ mws : List MW, (∀ mw ∈ mws, MWPreservesHeaders mw) →
      ∀ s, (runOnNetworkResponse mws s).headers = s.headers := by
  intro mws
  induction mws with
  | nil => intro _ s; rfl
  | cons mw rest ih =>
    intro h s
    have hmw := h mw (List.mem_cons_self mw rest)
    have hrest := fun m hm => h m (List.mem_cons_of_mem mw hm)
    unfold runOnNetworkResponse
    cases hh : mw.onNetworkResponse with
    | none => exact ih hrest s
    | some f =>
      rw [ih hrest (f s), hmw.onResp f hh s]

lemma runOnFatalNetworkError_headers :
    ∀ mws : List MW, (∀ mw ∈ mws, MWPreservesHeaders mw) →
      ∀ s, (runOnFatalNetworkError mws s).headers = s.headers := by
  intro mws
  induction mws with
  | nil => intro _ s; rfl
  | cons mw rest ih =>
    intro h s
    have hmw := h mw (List.mem_cons_self mw rest)
    have hrest := fun m hm => h m (List.mem_cons_of_mem mw hm)
    unfold runOnFatalNetworkError
    cases hh : mw.onFatalNetworkError with
    | none => exact ih hrest s
    | some f =>
      rw [ih hrest (f s), hmw.fatal f hh s]

lemma shouldRetryNetworkErrorLoop_headers :
    ∀ mws : List MW, (∀ mw ∈ mws, MWPreservesHeaders mw) →
      ∀ (r : Bool) (s : RState), ((shouldRetryNetworkErrorLoop mws r s).2).headers = s.headers := by
  intro mws
  induction mws with
  | nil => intro _ r s; rfl
  | cons mw rest ih =>
    intro h r s
    have hmw := h mw (List.mem_cons_self mw rest)
    have hrest := fun m hm => h m (List.mem_cons_of_mem mw hm)
    unfold shouldRetryNetworkErrorLoop
    cases hh : mw.shouldRetryNetworkError with
    | none =>
      dsimp only
      split
      · rfl
      · exact ih hrest r s
    | some f =>
      dsimp only
      cases r with
      | true =>
        split
        · rfl
        · exact ih hrest _ _
      | false =>
        split
        · exact hmw.net f hh s
        · rw [ih hrest _ _, hmw.net f hh s]

lemma shouldRetryErrorLoop_headers :
    ∀ mws : List MW, (∀ mw ∈ mws, MWPreservesHeaders mw) →
      ∀ (r : Bool) (s : RState), ((shouldRetryErrorLoop mws r s).2).headers = s.headers := by
  intro mws
  induction mws with
  | nil => intro _ r s; rfl
  | cons mw rest ih =>
    intro h r s
    have hmw := h mw (List.mem_cons_self mw rest)
    have hrest := fun m hm => h m (List.mem_cons_of_mem mw hm)
    unfold shouldRetryErrorLoop
    cases hh : mw.shouldRetryError with
    | none =>
      dsimp only
      exact ih hrest r s
    | some f =>
      dsimp only
      cases r with
      | true => exact ih hrest _ _
      | false => rw [ih hrest _ _, hmw.err f hh s]

lemma shouldRetryServerErrorLoop_headers :
    ∀ mws : List MW, (∀ mw ∈ mws, MWPreservesHeaders mw) →
      ∀ (r : Bool) (s : RState), ((shouldRetryServerErrorLoop mws r s).2).headers = s.headers := by
  intro mws
  induction mws with
  | nil => intro _ r s; rfl
  | cons mw rest ih =>
    intro h r s
    have hmw := h mw (List.mem_cons_self mw rest)
    have hrest := fun m hm => h m (List.mem_cons_of_mem mw hm)
    unfold shouldRetryServerErrorLoop
    cases hh : mw.shouldRetryServerError with
    | none =>
      dsimp only
      exact ih hrest r s
    | some f =>
      dsimp only
      cases r with
      | true => exact ih hrest _ _
      | false => rw [ih hrest _ _, hmw.srv f hh s]

lemma debag_headers (sc : RequestConfig) (s : RState) : (debag sc s).headers = s.headers := by
  unfold debag
  split_ifs <;> rfl

lemma fatalBlock_headers (mws : List MW) (h : ∀ mw ∈ mws, MWPreservesHeaders mw)
    (s : RState) :
    (runOnFatalNetworkError mws
      {s with didFailNetwork := true, fatalRounds := s.fatalRounds + 1}).headers = s.headers := by
  rw [runOnFatalNetworkError_headers mws h]

lemma handleFailure_headers (sc : RequestConfig) (t : Nat) (e : CaughtErr) (s : RState)
    (h : ∀ mw ∈ getMiddlewares sc, MWPreservesHeaders mw) :
    (stepOutState (handleFailure sc t e s)).headers = s.headers := by
  have hesc : (escalateTimeout t e s).headers = s.headers := by
    unfold escalateTimeout
    split_ifs <;> rfl
  unfold handleFailure
  dsimp only
  split
  · split
    · dsimp only [stepOutState]
      rw [shouldRetryNetworkErrorLoop_headers _ h _ _, hesc]
    · dsimp only [stepOutState]
      rw [debag_headers]
      split
      · rw [fatalBlock_headers _ h _, shouldRetryNetworkErrorLoop_headers _ h _ _, hesc]
      · rw [shouldRetryNetworkErrorLoop_headers _ h _ _, hesc]
  · split
    · dsimp only [stepOutState]
      exact hesc
    · dsimp only [stepOutState]
      rw [debag_headers]
      split
      · rw [fatalBlock_headers _ h _]
        exact hesc
      · exact hesc

lemma retryOrThrowServerErrorStep_headers (sc : RequestConfig) (e : Thrown) (s : RState)
    (h : ∀ mw ∈ getMiddlewares sc, MWPreservesHeaders mw) :
    (stepOutState (retryOrThrowServerErrorStep sc e s)).headers = s.headers := by
  unfold retryOrThrowServerErrorStep
  dsimp only
  split
  · split
    · dsimp only [stepOutState]
      exact shouldRetryServerErrorLoop_headers _ h _ _
    · dsimp only [stepOutState]
      rw [debag_headers]
      exact shouldRetryServerErrorLoop_headers _ h _ _
  · dsimp only [stepOutState]
    rw [debag_headers]

lemma handleResponse_headers (sc : RequestConfig) (r : TResponse) (s : RState)
    (h : ∀ mw ∈ getMiddlewares sc, MWPreservesHeaders mw) :
    (stepOutState (handleResponse sc r s)).headers = s.headers := by
  have h0 := runOnNetworkResponse_headers (getMiddlewares sc) h s
  unfold handleResponse
  dsimp only
  split
  · split
    · cases hpd : parseAndDecodeError sc r with
      | error e0 =>
        rw [retryOrThrowServerErrorStep_headers sc e0 _ h, h0]
      | ok err =>
        dsimp only
        split
        · split
          · dsimp only [stepOutState]
            rw [shouldRetryErrorLoop_headers _ h _ _, h0]
          · dsimp only [stepOutState]
            rw [debag_headers, shouldRetryErrorLoop_headers _ h _ _, h0]
        · dsimp only [stepOutState]
          rw [debag_headers, h0]
    · rw [retryOrThrowServerErrorStep_headers sc Thrown.bodyErr _ h, h0]
  · split
    · split
      · split
        · split
          · dsimp only [stepOutState]
            rw [debag_headers, h0]
          · dsimp only [stepOutState]
            exact h0
        · dsimp only [stepOutState]
          rw [debag_headers, h0]
      · rw [retryOrThrowServerErrorStep_headers sc Thrown.parseErr _ h, h0]
    · split
      · rw [retryOrThrowServerErrorStep_headers sc Thrown.missingJsonErr _ h, h0]
      · dsimp only [stepOutState]
        rw [debag_headers, h0]

lemma encodeBody_structured_json (sc : RequestConfig) (t0 : Nat) (s : RState)
    (enc : Option (List (String × Option String))) (hb : sc.body = BodyKind.structured enc)
    (hurl : contentTypeIsUrlencoded s.headers = false) :
    encodeBody sc t0 s =
      EncodeOut.encOk t0
        {s with headers := setHeader s.headers "Content-Type" "application/json;charset=utf-8"} := by
  unfold encodeBody
  rw [hb]
  dsimp only
  rw [hurl]
  simp

lemma recordAttempt_headers (t : Nat) (s : RState) : (recordAttempt t s).headers = s.headers :=
  rfl

lemma applyAbortFlag_headers (c : ErrCode) (s : RState) :
    (applyAbortFlag c s).headers = s.headers := by
  unfold applyAbortFlag
  split_ifs <;> rfl

lemma startModel_headersJson :
    ∀ (fuel : Nat) (sc : RequestConfig) (s : RState) (attempts : List AttemptOutcome)
      (base : Headers) (enc : Option (List (String × Option String))),
      sc.body = BodyKind.structured enc →
      configPreservesHeaders sc →
      headersJsonH base s.headers →
      headersJsonH base ((startModel fuel sc s attempts).2).headers := by
  intro fuel
  induction fuel with
  | zero =>
    intro sc s attempts base enc hb hcfg hj
    exact hj
  | succ n ih =>
    intro sc s attempts base enc hb hcfg hj
    have h : ∀ mw ∈ getMiddlewares sc, MWPreservesHeaders mw := hcfg
    simp only [startModel]
    set s1 := runOnBeforeRequest (getMiddlewares sc) s with hs1
    have hs1h : s1.headers = s.headers := runOnBeforeRequest_headers _ h s
    have hj1 : headersJsonH base s1.headers := by
      rw [hs1h]
      exact hj
    have hurl : contentTypeIsUrlencoded s1.headers = false :=
      contentTypeIsUrlencoded_of_json _ hj1.1
    set t0 := defaultTimeout sc s1 with ht0
    rw [encodeBody_structured_json sc t0 s1 enc hb hurl]
    dsimp only
    set s2 := ({s1 with
      headers := setHeader s1.headers "Content-Type" "application/json;charset=utf-8"} : RState)
      with hs2
    have hj2 : headersJsonH base s2.headers := headersJsonH_set_keep base s1.headers hj1
    cases attempts with
    | nil => exact hj2
    | cons a rest =>
      cases a with
      | failure c =>
        dsimp only
        have hfh := handleFailure_headers sc t0 (CaughtErr.fetchErr c)
          (applyAbortFlag c (recordAttempt t0 s2)) h
        rw [applyAbortFlag_headers, recordAttempt_headers] at hfh
        cases hout : handleFailure sc t0 (CaughtErr.fetchErr c)
            (applyAbortFlag c (recordAttempt t0 s2)) with
        | restart s3 =>
          dsimp only
          rw [hout] at hfh
          refine ih sc s3 rest base enc hb hcfg ?_
          rw [show s3.headers = s2.headers from hfh]
          exact hj2
        | throwE e s3 =>
          rw [hout] at hfh
          rw [show s3.headers = s2.headers from hfh]
          exact hj2
        | done v s3 =>
          rw [hout] at hfh
          rw [show s3.headers = s2.headers from hfh]
          exact hj2
      | success r =>
        dsimp only
        have hfh := handleResponse_headers sc r (recordAttempt t0 s2) h
        rw [recordAttempt_headers] at hfh
        cases hout : handleResponse sc r (recordAttempt t0 s2) with
        | restart s3 =>
          dsimp only
          rw [hout] at hfh
          refine ih sc s3 rest base enc hb hcfg ?_
          rw [show s3.headers = s2.headers from hfh]
          exact hj2
        | throwE e s3 =>
          rw [hout] at hfh
          rw [show s3.headers = s2.headers from hfh]
          exact hj2
        | done v s3 =>
          rw [hout] at hfh
          rw [show s3.headers = s2.headers from hfh]
          exact hj2

/-- C10: for every request whose body is present, not FormData, and whose
Content-Type header does not indicate form-url-encoding, start() sets the
request's own Content-Type header to "application/json;charset=utf-8"; the
mutation persists in the state in which start() resolves, throws or runs out
of fuel (so it is seen by all subsequent retry attempts), and — provided
middleware hooks leave the headers alone — every other header key is left
unchanged by start(); the remaining request fields (host, path, method,
version, query, body, decoders, middlewares, bag reference) are immutable
configuration in this embedding, mirroring that start() never assigns
them. -/
theorem json_content_type_header_frame :
    ∀ (fuel : Nat) (sc : RequestConfig) (s : RState) (attempts : List AttemptOutcome)
      (enc : Option (List (String × Option String))),
      sc.body = BodyKind.structured enc →
      configPreservesHeaders sc →
      contentTypeIsUrlencoded s.headers = false →
      getHeader ((startModel (fuel + 1) sc s attempts).2).headers "Content-Type" =
        some "application/json;charset=utf-8" ∧
      ∀ k, k ≠ "Content-Type" →
        getHeader ((startModel (fuel + 1) sc s attempts).2).headers k =
          getHeader s.headers k := by
  intro fuel sc s attempts enc hb hcfg hurl0
  have h : ∀ mw ∈ getMiddlewares sc, MWPreservesHeaders mw := hcfg
  have hmain : headersJsonH s.headers ((startModel (fuel + 1) sc s attempts).2).headers := by
    simp only [startModel]
    set s1 := runOnBeforeRequest (getMiddlewares sc) s with hs1
    have hs1h : s1.headers = s.headers := runOnBeforeRequest_headers _ h s
    have hurl : contentTypeIsUrlencoded s1.headers = false := by
      rw [hs1h]
      exact hurl0
    set t0 := defaultTimeout sc s1 with ht0
    rw [encodeBody_structured_json sc t0 s1 enc hb hurl]
    dsimp only
    set s2 := ({s1 with
      headers := setHeader s1.headers "Content-Type" "application/json;charset=utf-8"} : RState)
      with hs2
    have hj2 : headersJsonH s.headers s2.headers := by
      have := headersJsonH_set_self s.headers
      rw [show s2.headers = setHeader s1.headers "Content-Type" "application/json;charset=utf-8"
        from rfl, hs1h]
      exact this
    cases attempts with
    | nil => exact hj2
    | cons a rest =>
      cases a with
      | failure c =>
        dsimp only
        have hfh := handleFailure_headers sc t0 (CaughtErr.fetchErr c)
          (applyAbortFlag c (recordAttempt t0 s2)) h
        rw [applyAbortFlag_headers, recordAttempt_headers] at hfh
        cases hout : handleFailure sc t0 (CaughtErr.fetchErr c)
            (applyAbortFlag c (recordAttempt t0 s2)) with
        | restart s3 =>
          dsimp only
          rw [hout] at hfh
          refine startModel_headersJson fuel sc s3 rest s.headers enc hb hcfg ?_
          rw [show s3.headers = s2.headers from hfh]
          exact hj2
        | throwE e s3 =>
          rw [hout] at hfh
          rw [show s3.headers = s2.headers from hfh]
          exact hj2
        | done v s3 =>
          rw [hout] at hfh
          rw [show s3.headers = s2.headers from hfh]
          exact hj2
      | success r =>
        dsimp only
        have hfh := handleResponse_headers sc r (recordAttempt t0 s2) h
        rw [recordAttempt_headers] at hfh
        cases hout : handleResponse sc r (recordAttempt t0 s2) with
        | restart s3 =>
          dsimp only
          rw [hout] at hfh
          refine startModel_headersJson fuel sc s3 rest s.headers enc hb hcfg ?_
          rw [show s3.headers = s2.headers from hfh]
          exact hj2
        | throwE e s3 =>
          rw [hout] at hfh
          rw [show s3.headers = s2.headers from hfh]
          exact hj2
        | done v s3 =>
          rw [hout] at hfh
          rw [show s3.headers = s2.headers from hfh]
          exact hj2
  exact ⟨hmain.1, hmain.2⟩

/-- The example request carrying a structured JSON body. -/
def jsonBodyConfig : RequestConfig :=
  {plainConfig with body := BodyKind.structured (some [])}

/-- Witness for C10: running the structured-body request writes the JSON
Content-Type header and leaves another key (absent before and after)
unchanged. -/
theorem json_content_type_header_frame_witness :
    getHeader ((startModel 1 jsonBodyConfig freshState []).2).headers "Content-Type" =
      some "application/json;charset=utf-8" ∧
    getHeader ((startModel 1 jsonBodyConfig freshState []).2).headers "Accept" =
      getHeader freshState.headers "Accept" :=
  ⟨(json_content_type_header_frame 0 jsonBodyConfig freshState [] (some []) rfl
      (fun mw hm => absurd hm (List.not_mem_nil mw)) rfl).1,
    (json_content_type_header_frame 0 jsonBodyConfig freshState [] (some []) rfl
      (fun mw hm => absurd hm (List.not_mem_nil mw)) rfl).2 "Accept" (by decide)⟩

end SimpleNet
